import Mathlib

/-!
Shallow embedding of src/vpc_cleaner.py (the "de-crufter" VPC cleanup script).

The script is a single linear procedure `vpc_cleanup` that, given a VPC id,
issues a fixed sequence of AWS list/delete calls.  We embed it as a pure
function from a backend state (the objects each discovery query returns, plus
an oracle saying which mutating calls the backend rejects with a ClientError)
to a trace of observable events: discovery queries, plain log lines
(announcements printed before the dry-run gate), coloured success/failure
lines, and mutating API calls.

Python exceptions: every mutating call the source wraps in
try/except ClientError is modelled as "emit the call, then an error line when
the oracle rejects it"; the calls the source does NOT wrap
(instance.terminate() at line 77, delete_vpc_endpoints at line 164,
netacl.delete() at line 229) abort the whole procedure when rejected, which we
model by a Bool "completed" flag threaded through the sequencing combinators.

Object identities: the Python f-strings interpolate boto3 object reprs; we
render an object by its id string.  The ClientError detail appended to some
messages is abstracted away (the message keeps the object identity).
-/

namespace VpcCleaner

/-- A route-table association as returned by rt.associations (id plus the
Main flag the source reads as rta.main, line 84). -/
structure RTAssoc where
  rtaId : String
  main : Bool
deriving DecidableEq, Repr

/-- A route table: its id, its associations and its routes (lines 81-107). -/
structure RouteTable where
  rtId : String
  associations : List RTAssoc
  routes : List String
deriving DecidableEq, Repr

/-- A subnet with the instances and network interfaces discovered inside it
(lines 73-74 and 198-199). -/
structure Subnet where
  subnetId : String
  instances : List String
  networkInterfaces : List String
deriving DecidableEq, Repr

/-- A security group.  The source reads group_name (line 169) and
ip_permissions (lines 173-175, 187-189).  ipPermissionsEgress models the
ip_permissions_egress attribute, which the source never reads: both
revoke_ingress and revoke_egress are passed sg.ip_permissions. -/
structure SecurityGroup where
  groupId : String
  groupName : String
  ipPermissions : List String
  ipPermissionsEgress : List String
deriving DecidableEq, Repr

/-- A network ACL (id plus the is_default flag read at line 226). -/
structure NetworkAcl where
  aclId : String
  isDefault : Bool
deriving DecidableEq, Repr

/-- The mutating (delete/terminate/release/revoke/detach) API calls the
script can issue. -/
inductive MutCall where
  | terminateInstance (instanceId : String)
  | deleteRouteTableAssoc (rtaId : String)
  | deleteRoute (rtId : String) (route : String)
  | deleteRouteTable (rtId : String)
  | detachInternetGateway (igwId : String)
  | deleteInternetGateway (igwId : String)
  | deleteNatGateway (natId : String)
  | releaseAddress (allocId : String)
  | deleteSubnet (subnetId : String)
  | deleteVpcEndpoint (epId : String)
  | revokeIngress (groupId : String) (perms : List String)
  | revokeEgress (groupId : String) (perms : List String)
  | deleteSecurityGroup (groupId : String)
  | deleteNetworkInterface (eniId : String)
  | deleteVpcPeering (pcxId : String)
  | deleteNetworkAcl (aclId : String)
  | deleteVpc (vpcId : String)
deriving DecidableEq, Repr

/-- The filter expression a discovery query carries: the wildcard-wrapped
name-tag filter built at line 53, a vpc-id filter (lines 123, 158-160), or a
requester-vpc-info.vpc-id filter (lines 211-213). -/
inductive DiscoveryFilter where
  | nameTag (pat : String)
  | vpcId (v : String)
  | requesterVpcId (v : String)
deriving DecidableEq, Repr

/-- The discovery/listing queries the script issues. -/
inductive Query where
  | listSubnets (vpcId : String)
  | listInstances (subnetId : String)
  | listRouteTables (vpcId : String)
  | describeInternetGateways (f : DiscoveryFilter)
  | describeNatGateways (f : DiscoveryFilter)
  | describeAddresses (f : DiscoveryFilter)
  | describeVpcEndpoints (f : DiscoveryFilter)
  | listSecurityGroups (vpcId : String)
  | listNetworkInterfaces (subnetId : String)
  | describeVpcPeeringConnections (f : DiscoveryFilter)
  | listNetworkAcls (vpcId : String)
deriving DecidableEq, Repr

/-- One observable event of a run: a discovery query, a plain printed line, a
green (success) line, a red (failure) line, or a mutating API call. -/
inductive Event where
  | query (q : Query)
  | log (line : String)
  | okLine (line : String)
  | errLine (line : String)
  | call (c : MutCall)
deriving DecidableEq, Repr

/-- The backend state: what each discovery returns, and which mutating calls
the backend rejects with a ClientError.  The state is static: queries read it
unchanged (the comparison point for every claim is a fixed backend state). -/
structure AwsState where
  subnets : List Subnet
  routeTables : List RouteTable
  internetGateways : List String
  natGateways : List String
  addresses : List String
  vpcEndpoints : List String
  securityGroups : List SecurityGroup
  peeringConnections : List String
  networkAcls : List NetworkAcl
  rejects : MutCall → Bool

/-- The parsed command-line arguments (lines 31-43). -/
structure CliArgs where
  filterTerm : String
  awsRegion : String
  dryRun : Bool
  profileName : String
deriving DecidableEq, Repr

/-- The profile-name string literal hardcoded at line 46. -/
def hardcodedProfile : String := "222638339470_Mesosphere-PowerUser"

/-- Embeds line 46: boto3.setup_default_session is called with the string
literal, not with args.profileName (the parsed value assigned at line 43 is
never used). -/
def sessionProfile (_args : CliArgs) : String := hardcodedProfile

/-- The name-tag filter built at line 53: tag:Name matches *filterTerm*. -/
def nameFilter (args : CliArgs) : DiscoveryFilter :=
  DiscoveryFilter.nameTag ("*" ++ args.filterTerm ++ "*")

/-- A trace of events. -/
abbrev Trace := List Event

/-- Sequencing with exception propagation: when the first part aborted
(an uncaught ClientError), the continuation never runs. -/
def seqE : Trace × Bool → (Unit → Trace × Bool) → Trace × Bool
  | (es, true), k => (es ++ (k ()).1, (k ()).2)
  | (es, false), _ => (es, false)

/-- Iterate an abortable action over a list, stopping at the first abort. -/
def forE {α : Type} (f : α → Trace × Bool) : List α → Trace × Bool
  | [] => ([], true)
  | x :: xs => seqE (f x) (fun _ => forE f xs)

/-- Embeds lines 74-78: announce each instance, and unless dry-run terminate
it.  instance.terminate() is not wrapped in try/except, so a rejection aborts
(the green line at line 78 is then never printed). -/
def terminateInstances (st : AwsState) (dry : Bool) : List String → Trace × Bool
  | [] => ([], true)
  | i :: rest =>
    let ann := Event.log ("Deleting the following Instance: " ++ i)
    if dry then
      let r := terminateInstances st dry rest
      (ann :: r.1, r.2)
    else if st.rejects (MutCall.terminateInstance i) then
      ([ann, Event.call (MutCall.terminateInstance i)], false)
    else
      let r := terminateInstances st dry rest
      (ann :: Event.call (MutCall.terminateInstance i) ::
        Event.okLine "Succesfully Completed" :: r.1, r.2)

/-- Embeds lines 72-78: for each subnet of the VPC, terminate its instances. -/
def instancesStage (st : AwsState) (dry : Bool) (vpcid : String) : Trace × Bool :=
  seqE ([Event.query (Query.listSubnets vpcid)], true) (fun _ =>
    forE (fun s =>
      seqE ([Event.query (Query.listInstances s.subnetId)], true) (fun _ =>
        terminateInstances st dry s.instances)) st.subnets)

/-- Embeds lines 82-90: announce every association; delete it only when it is
not the main association and not a dry run; the delete is guarded by
try/except ClientError. -/
def rtaDelete (st : AwsState) (dry : Bool) (rta : RTAssoc) : Trace :=
  let ann := Event.log ("Deleting the following routing table associations: " ++ rta.rtaId)
  if !rta.main && !dry then
    if st.rejects (MutCall.deleteRouteTableAssoc rta.rtaId) then
      [ann, Event.call (MutCall.deleteRouteTableAssoc rta.rtaId),
        Event.errLine ("Failed to delete route table associations: " ++ rta.rtaId)]
    else
      [ann, Event.call (MutCall.deleteRouteTableAssoc rta.rtaId),
        Event.okLine "Succesfully Completed"]
  else [ann]

/-- Embeds lines 91-99: announce and (unless dry) delete each route, guarded
by try/except ClientError. -/
def routeDelete (st : AwsState) (dry : Bool) (rtId : String) (r : String) : Trace :=
  let ann := Event.log ("Deleting the following routing table routes: " ++ r)
  if !dry then
    if st.rejects (MutCall.deleteRoute rtId r) then
      [ann, Event.call (MutCall.deleteRoute rtId r),
        Event.errLine ("Failed to delete route: " ++ r)]
    else
      [ann, Event.call (MutCall.deleteRoute rtId r),
        Event.okLine "Succesfully Completed"]
  else [ann]

/-- Embeds lines 81-107 for one route table: associations, then routes, then
the table itself, each sub-step guarded by its own try/except. -/
def routeTableProcess (st : AwsState) (dry : Bool) (rt : RouteTable) : Trace :=
  (rt.associations.flatMap (rtaDelete st dry)) ++
  (rt.routes.flatMap (routeDelete st dry rt.rtId)) ++
  (let ann := Event.log ("Deleting the routing table: " ++ rt.rtId)
   if !dry then
     if st.rejects (MutCall.deleteRouteTable rt.rtId) then
       [ann, Event.call (MutCall.deleteRouteTable rt.rtId),
         Event.errLine ("Failed to delete routing table: " ++ rt.rtId)]
     else
       [ann, Event.call (MutCall.deleteRouteTable rt.rtId),
         Event.okLine "Successfully Completed"]
   else [ann])

/-- Embeds lines 80-107: the route-table stage over all route tables. -/
def routeTablesStage (st : AwsState) (dry : Bool) (vpcid : String) : Trace :=
  Event.query (Query.listRouteTables vpcid) ::
    st.routeTables.flatMap (routeTableProcess st dry)

/-- Embeds lines 111-120 for one gateway: detach then delete inside a single
try/except, so a rejected detach skips the delete. -/
def igwProcess (st : AwsState) (dry : Bool) (g : String) : Trace :=
  let ann := Event.log ("Deleting internet gateway - " ++ g)
  if !dry then
    if st.rejects (MutCall.detachInternetGateway g) then
      [ann, Event.call (MutCall.detachInternetGateway g),
        Event.errLine ("Dependency error with internet gateway: " ++ g)]
    else if st.rejects (MutCall.deleteInternetGateway g) then
      [ann, Event.call (MutCall.detachInternetGateway g),
        Event.call (MutCall.deleteInternetGateway g),
        Event.errLine ("Dependency error with internet gateway: " ++ g)]
    else
      [ann, Event.call (MutCall.detachInternetGateway g),
        Event.call (MutCall.deleteInternetGateway g),
        Event.okLine "Succesfully Completed"]
  else [ann]

/-- Embeds lines 109-120: internet gateways are discovered with the NAME
filter (describe_internet_gateways(Filters=filt), line 110), not a vpc-id
filter. -/
def internetGatewaysStage (st : AwsState) (dry : Bool) (args : CliArgs) : Trace :=
  Event.query (Query.describeInternetGateways (nameFilter args)) ::
    st.internetGateways.flatMap (igwProcess st dry)

/-- Embeds lines 125-133 for one NAT gateway. -/
def natProcess (st : AwsState) (dry : Bool) (g : String) : Trace :=
  let ann := Event.log ("Deleting NAT gateway - " ++ g)
  if !dry then
    if st.rejects (MutCall.deleteNatGateway g) then
      [ann, Event.call (MutCall.deleteNatGateway g),
        Event.errLine ("Dependency error with nat gateway: " ++ g)]
    else
      [ann, Event.call (MutCall.deleteNatGateway g),
        Event.okLine "Succesfully Completed"]
  else [ann]

/-- Embeds lines 122-133: NAT gateways are discovered scoped by vpc-id
(line 123). -/
def natGatewaysStage (st : AwsState) (dry : Bool) (vpcid : String) : Trace :=
  Event.query (Query.describeNatGateways (DiscoveryFilter.vpcId vpcid)) ::
    st.natGateways.flatMap (natProcess st dry)

/-- Embeds lines 136-144 for one elastic IP allocation. -/
def eipProcess (st : AwsState) (dry : Bool) (eip : String) : Trace :=
  let ann := Event.log ("Releasing Elastic IP: " ++ eip)
  if !dry then
    if st.rejects (MutCall.releaseAddress eip) then
      [ann, Event.call (MutCall.releaseAddress eip),
        Event.errLine ("Dependency error with elastic ip: " ++ eip)]
    else
      [ann, Event.call (MutCall.releaseAddress eip),
        Event.okLine "Succesfully Completed"]
  else [ann]

/-- Embeds lines 135-144: addresses are discovered with the NAME filter
(describe_addresses(Filters=filt), line 136), not a vpc-id filter. -/
def addressesStage (st : AwsState) (dry : Bool) (args : CliArgs) : Trace :=
  Event.query (Query.describeAddresses (nameFilter args)) ::
    st.addresses.flatMap (eipProcess st dry)

/-- Embeds lines 147-154 for one subnet. -/
def subnetProcess (st : AwsState) (dry : Bool) (s : Subnet) : Trace :=
  let ann := Event.log ("Deleting subnet: " ++ s.subnetId)
  if !dry then
    if st.rejects (MutCall.deleteSubnet s.subnetId) then
      [ann, Event.call (MutCall.deleteSubnet s.subnetId),
        Event.errLine ("Dependency error with " ++ s.subnetId)]
    else
      [ann, Event.call (MutCall.deleteSubnet s.subnetId),
        Event.okLine "Succesfully Completed"]
  else [ann]

/-- Embeds lines 146-154: the subnet-deletion stage. -/
def subnetsStage (st : AwsState) (dry : Bool) (vpcid : String) : Trace :=
  Event.query (Query.listSubnets vpcid) ::
    st.subnets.flatMap (subnetProcess st dry)

/-- Embeds lines 157-164: endpoints are announced and deleted with NO
try/except and NO success line; a rejected delete_vpc_endpoints aborts. -/
def endpointsLoop (st : AwsState) (dry : Bool) : List String → Trace × Bool
  | [] => ([], true)
  | ep :: rest =>
    let ann := Event.log ("Deleting endpoint: " ++ ep)
    if dry then
      let r := endpointsLoop st dry rest
      (ann :: r.1, r.2)
    else if st.rejects (MutCall.deleteVpcEndpoint ep) then
      ([ann, Event.call (MutCall.deleteVpcEndpoint ep)], false)
    else
      let r := endpointsLoop st dry rest
      (ann :: Event.call (MutCall.deleteVpcEndpoint ep) :: r.1, r.2)

/-- Embeds lines 156-164: VPC endpoints are discovered scoped by vpc-id. -/
def endpointsStage (st : AwsState) (dry : Bool) (vpcid : String) : Trace × Bool :=
  seqE ([Event.query (Query.describeVpcEndpoints (DiscoveryFilter.vpcId vpcid))], true)
    (fun _ => endpointsLoop st dry st.vpcEndpoints)

/-- Embeds the try body shared by lines 173-176 and 187-190: when
ip_permissions is nonempty revoke ingress then egress (both passed
sg.ip_permissions), then delete the group; the sequence stops at the first
rejected call.  Returns the calls issued and whether the whole body
succeeded. -/
def sgTryDelete (st : AwsState) (sg : SecurityGroup) : Trace × Bool :=
  let revokePart : Trace × Bool :=
    if sg.ipPermissions = [] then ([], true)
    else if st.rejects (MutCall.revokeIngress sg.groupId sg.ipPermissions) then
      ([Event.call (MutCall.revokeIngress sg.groupId sg.ipPermissions)], false)
    else if st.rejects (MutCall.revokeEgress sg.groupId sg.ipPermissions) then
      ([Event.call (MutCall.revokeIngress sg.groupId sg.ipPermissions),
        Event.call (MutCall.revokeEgress sg.groupId sg.ipPermissions)], false)
    else
      ([Event.call (MutCall.revokeIngress sg.groupId sg.ipPermissions),
        Event.call (MutCall.revokeEgress sg.groupId sg.ipPermissions)], true)
  if revokePart.2 then
    (revokePart.1 ++ [Event.call (MutCall.deleteSecurityGroup sg.groupId)],
      !st.rejects (MutCall.deleteSecurityGroup sg.groupId))
  else revokePart

/-- Embeds lines 168-180 for one security group: skip the default group;
otherwise announce, and unless dry-run attempt revoke-and-delete, collecting
the group on failure.  Returns the events and the failure list contribution. -/
def sgFirstPassOne (st : AwsState) (dry : Bool) (sg : SecurityGroup) :
    Trace × List SecurityGroup :=
  if sg.groupName = "default" then ([], [])
  else
    let ann := Event.log ("Deleting Security Group Rules: " ++ sg.groupId)
    if dry then ([ann], [])
    else
      let r := sgTryDelete st sg
      if r.2 then (ann :: r.1 ++ [Event.okLine "Succesfully Completed"], [])
      else (ann :: r.1 ++
        [Event.errLine ("Dependency error with " ++ sg.groupId ++ " - will have another go")],
        [sg])

/-- Embeds lines 167-180: the first security-group pass, accumulating
sg_failures in first-pass order. -/
def sgFirstPassLoop (st : AwsState) (dry : Bool) :
    List SecurityGroup → Trace × List SecurityGroup
  | [] => ([], [])
  | sg :: rest =>
    let one := sgFirstPassOne st dry sg
    let r := sgFirstPassLoop st dry rest
    (one.1 ++ r.1, one.2 ++ r.2)

/-- Embeds lines 185-195 for one failed group: re-attempt revoke-and-delete
(no announcement line), printing success or the manual-remediation line. -/
def sgRetryOne (st : AwsState) (sg : SecurityGroup) : Trace :=
  let r := sgTryDelete st sg
  if r.2 then r.1 ++ [Event.okLine "Succesfully Completed"]
  else r.1 ++
    [Event.errLine ("Could not rectify the dependency error with " ++ sg.groupId ++
      ". Rectify manually then retry")]

/-- Embeds lines 183-195: when sg_failures is nonempty, reverse it and
re-attempt each.  NOTE: this block contains no dry-run check in the source;
it takes no dry-run input here for the same reason. -/
def sgRetryPass (st : AwsState) (failures : List SecurityGroup) : Trace :=
  if failures.length > 0 then (failures.reverse).flatMap (sgRetryOne st) else []

/-- Embeds lines 166-195: the full security-group stage, first pass then
retry pass. -/
def securityGroupsStage (st : AwsState) (dry : Bool) (vpcid : String) : Trace :=
  let fp := sgFirstPassLoop st dry st.securityGroups
  Event.query (Query.listSecurityGroups vpcid) :: fp.1 ++ sgRetryPass st fp.2

/-- Embeds lines 199-206 for one network interface. -/
def eniProcess (st : AwsState) (dry : Bool) (eni : String) : Trace :=
  let ann := Event.log ("Deleting interface: " ++ eni)
  if !dry then
    if st.rejects (MutCall.deleteNetworkInterface eni) then
      [ann, Event.call (MutCall.deleteNetworkInterface eni),
        Event.errLine ("Dependency error with network interface: " ++ eni)]
    else
      [ann, Event.call (MutCall.deleteNetworkInterface eni),
        Event.okLine "Succesfully Completed"]
  else [ann]

/-- Embeds lines 197-206: network interfaces found in each subnet. -/
def networkInterfacesStage (st : AwsState) (dry : Bool) (vpcid : String) : Trace :=
  Event.query (Query.listSubnets vpcid) ::
    st.subnets.flatMap (fun s =>
      Event.query (Query.listNetworkInterfaces s.subnetId) ::
        s.networkInterfaces.flatMap (eniProcess st dry))

/-- Embeds lines 210-222 for one peering connection: guarded delete, failures
collected into vpc_failures. -/
def peeringProcess (st : AwsState) (dry : Bool) (p : String) : Trace × List String :=
  let ann := Event.log ("Deleting peer connection: " ++ p)
  if !dry then
    if st.rejects (MutCall.deleteVpcPeering p) then
      ([ann, Event.call (MutCall.deleteVpcPeering p),
        Event.errLine ("Dependency error with " ++ p)], [p])
    else
      ([ann, Event.call (MutCall.deleteVpcPeering p),
        Event.okLine "Succesfully Completed"], [])
  else ([ann], [])

/-- Embeds lines 208-222: peering connections are discovered scoped by
requester-vpc-info.vpc-id; the vpc_failures list is collected but never read
afterwards (dead bookkeeping, returned here and ignored by the caller). -/
def peeringStage (st : AwsState) (dry : Bool) (vpcid : String) :
    Trace × List String :=
  (Event.query (Query.describeVpcPeeringConnections (DiscoveryFilter.requesterVpcId vpcid)) ::
    (st.peeringConnections.map (peeringProcess st dry)).flatMap Prod.fst,
   (st.peeringConnections.map (peeringProcess st dry)).flatMap Prod.snd)

/-- Embeds lines 225-230: non-default ACLs are announced and deleted with NO
try/except; a rejected delete aborts.  Default ACLs are skipped entirely. -/
def aclLoop (st : AwsState) (dry : Bool) : List NetworkAcl → Trace × Bool
  | [] => ([], true)
  | acl :: rest =>
    if acl.isDefault then aclLoop st dry rest
    else
      let ann := Event.log ("Deleting ACL: " ++ acl.aclId)
      if dry then
        let r := aclLoop st dry rest
        (ann :: r.1, r.2)
      else if st.rejects (MutCall.deleteNetworkAcl acl.aclId) then
        ([ann, Event.call (MutCall.deleteNetworkAcl acl.aclId)], false)
      else
        let r := aclLoop st dry rest
        (ann :: Event.call (MutCall.deleteNetworkAcl acl.aclId) ::
          Event.okLine "Succesfully Completed" :: r.1, r.2)

/-- Embeds lines 224-230: the network-ACL stage. -/
def aclStage (st : AwsState) (dry : Bool) (vpcid : String) : Trace × Bool :=
  seqE ([Event.query (Query.listNetworkAcls vpcid)], true)
    (fun _ => aclLoop st dry st.networkAcls)

/-- Embeds lines 232-239: finally delete the VPC itself, guarded by
try/except ClientError. -/
def vpcDeleteStage (st : AwsState) (dry : Bool) (vpcid : String) : Trace :=
  let ann := Event.log ("Deleting the VPC: " ++ vpcid)
  if !dry then
    if st.rejects (MutCall.deleteVpc vpcid) then
      [ann, Event.call (MutCall.deleteVpc vpcid),
        Event.errLine ("Could not delete the VPC: " ++ vpcid)]
    else
      [ann, Event.call (MutCall.deleteVpc vpcid),
        Event.okLine "Succesfully Completed"]
  else [ann]

/-- Pythonic falsiness of the vpcid argument (line 64: if not vpcid): None or
the empty string. -/
def pyFalsy : Option String → Bool
  | none => true
  | some s => s == ""

/-- Embeds vpc_cleanup (lines 60-239): the guard at lines 64-66, the header
line at line 67, then the thirteen stages strictly in source order.  The Bool
is true when the procedure ran to completion (no uncaught ClientError). -/
def vpc_cleanup (args : CliArgs) (st : AwsState) (vpcid : Option String) :
    Trace × Bool :=
  match vpcid with
  | none => ([Event.log "VPC id was not provided. Exiting"], true)
  | some v =>
    if v == "" then ([Event.log "VPC id was not provided. Exiting"], true)
    else
      seqE ([Event.log ("Starting to Removing VPC artefacts: " ++ v)], true) (fun _ =>
      seqE (instancesStage st args.dryRun v) (fun _ =>
      seqE (routeTablesStage st args.dryRun v, true) (fun _ =>
      seqE (internetGatewaysStage st args.dryRun args, true) (fun _ =>
      seqE (natGatewaysStage st args.dryRun v, true) (fun _ =>
      seqE (addressesStage st args.dryRun args, true) (fun _ =>
      seqE (subnetsStage st args.dryRun v, true) (fun _ =>
      seqE (endpointsStage st args.dryRun v) (fun _ =>
      seqE (securityGroupsStage st args.dryRun v, true) (fun _ =>
      seqE (networkInterfacesStage st args.dryRun v, true) (fun _ =>
      seqE ((peeringStage st args.dryRun v).1, true) (fun _ =>
      seqE (aclStage st args.dryRun v) (fun _ =>
      (vpcDeleteStage st args.dryRun v, true)))))))))))))

/-- Embeds lines 242-247: iterate vpc_cleanup over the matched VPC ids.  The
loop has no try/except, so an exception escaping vpc_cleanup stops the whole
run (later matched VPCs are never processed).  The backend state is the
response set for each target. -/
def mainLoop (args : CliArgs) (st : AwsState) : List String → Trace × Bool
  | [] => ([], true)
  | v :: rest =>
    seqE (vpc_cleanup args st (some v)) (fun _ =>
      seqE ([Event.log ("VPC " ++ v ++ " Complete")], true) (fun _ =>
        mainLoop args st rest))

/-- The mutating calls of a trace, in order. -/
def callsOf (es : Trace) : List MutCall :=
  es.filterMap (fun e => match e with | Event.call c => some c | _ => none)

/-- The discovery queries of a trace, in order. -/
def queriesOf (es : Trace) : List Query :=
  es.filterMap (fun e => match e with | Event.query q => some q | _ => none)

/-- The plain (announcement) log lines of a trace, in order; success and
failure marker lines are separate constructors and not included. -/
def logsOf (es : Trace) : List String :=
  es.filterMap (fun e => match e with | Event.log s => some s | _ => none)

/-- The stage number of a mutating call in the fixed thirteen-stage order
(route-table associations, routes and tables share one stage; both
security-group passes share one stage). -/
def stageIdx : MutCall → Nat
  | MutCall.terminateInstance _ => 0
  | MutCall.deleteRouteTableAssoc _ => 1
  | MutCall.deleteRoute _ _ => 1
  | MutCall.deleteRouteTable _ => 1
  | MutCall.detachInternetGateway _ => 2
  | MutCall.deleteInternetGateway _ => 2
  | MutCall.deleteNatGateway _ => 3
  | MutCall.releaseAddress _ => 4
  | MutCall.deleteSubnet _ => 5
  | MutCall.deleteVpcEndpoint _ => 6
  | MutCall.revokeIngress _ _ => 7
  | MutCall.revokeEgress _ _ => 7
  | MutCall.deleteSecurityGroup _ => 7
  | MutCall.deleteNetworkInterface _ => 8
  | MutCall.deleteVpcPeering _ => 9
  | MutCall.deleteNetworkAcl _ => 10
  | MutCall.deleteVpc _ => 11

/-- All mutating calls of a trace belong to stage n. -/
def CallsAt (es : Trace) (n : Nat) : Prop := ∀ c ∈ callsOf es, stageIdx c = n

/-- The stage indices of the mutating calls of a trace, in emission order. -/
def callIdxs (es : Trace) : List Nat := (callsOf es).map stageIdx

/-- The mutating calls of a trace are emitted in nondecreasing stage order. -/
def IdxSorted (es : Trace) : Prop := (callIdxs es).Pairwise (· ≤ ·)

/-- The backend accepts every call the script issues outside a try/except:
instance terminations, endpoint deletions and network-ACL deletions. -/
def NoFatalRejects (st : AwsState) : Prop :=
  (∀ i, st.rejects (MutCall.terminateInstance i) = false) ∧
  (∀ e, st.rejects (MutCall.deleteVpcEndpoint e) = false) ∧
  (∀ a, st.rejects (MutCall.deleteNetworkAcl a) = false)

/-! Concrete fixtures used by witnesses and counterexamples. -/

/-- A live-run argument set (dry-run off). -/
def argsLive : CliArgs :=
  { filterTerm := "alpha", awsRegion := "us-west-2", dryRun := false,
    profileName := hardcodedProfile }

/-- The same argument set with dry-run on. -/
def argsDry : CliArgs := { argsLive with dryRun := true }

/-- A non-default group with ingress rules. -/
def sgWeb : SecurityGroup :=
  { groupId := "sg-1", groupName := "web", ipPermissions := ["p1"],
    ipPermissionsEgress := [] }

/-- A non-default group with no ingress rules (its egress rules are never
read by the source). -/
def sgDb : SecurityGroup :=
  { groupId := "sg-2", groupName := "db", ipPermissions := [],
    ipPermissionsEgress := ["e1"] }

/-- The default group, which the stage skips. -/
def sgDefault : SecurityGroup :=
  { groupId := "sg-0", groupName := "default", ipPermissions := ["p0"],
    ipPermissionsEgress := [] }

/-- A subnet fixture holding one instance and one network interface. -/
def subnetFix : Subnet :=
  { subnetId := "subnet-1", instances := ["i-1"], networkInterfaces := ["eni-1"] }

/-- A route-table fixture with a main and a non-main association. -/
def rtbFix : RouteTable :=
  { rtId := "rtb-1",
    associations := [{ rtaId := "rtbassoc-1", main := true }, { rtaId := "rtbassoc-2", main := false }],
    routes := ["r-1"] }

/-- A small backend state exercising every stage; accepts every call. -/
def stBase : AwsState :=
  { subnets := [subnetFix],
    routeTables := [rtbFix],
    internetGateways := ["igw-1"],
    natGateways := ["nat-1"],
    addresses := ["eipalloc-1"],
    vpcEndpoints := ["vpce-1"],
    securityGroups := [sgDefault, sgWeb, sgDb],
    peeringConnections := ["pcx-1"],
    networkAcls := [{ aclId := "acl-1", isDefault := true }, { aclId := "acl-2", isDefault := false }],
    rejects := fun _ => false }

/-- The same backend, but it rejects the (unguarded) termination of i-1. -/
def stRejectTerminate : AwsState :=
  { stBase with rejects := fun c =>
      match c with
      | MutCall.terminateInstance i => i == "i-1"
      | _ => false }

/-- The same backend, but it rejects two guarded calls: the deletion of
subnet-1 and the deletion of group sg-1. -/
def stRejectGuarded : AwsState :=
  { stBase with rejects := fun c =>
      match c with
      | MutCall.deleteSubnet s => s == "subnet-1"
      | MutCall.deleteSecurityGroup g => g == "sg-1"
      | _ => false }

/-! Basic facts about the observers and the sequencing combinators. -/

@[simp] lemma callsOf_nil : callsOf [] = [] := rfl

@[simp] lemma callsOf_cons_query (q : Query) (es : Trace) :
    callsOf (Event.query q :: es) = callsOf es := rfl

@[simp] lemma callsOf_cons_log (s : String) (es : Trace) :
    callsOf (Event.log s :: es) = callsOf es := rfl

@[simp] lemma callsOf_cons_ok (s : String) (es : Trace) :
    callsOf (Event.okLine s :: es) = callsOf es := rfl

@[simp] lemma callsOf_cons_err (s : String) (es : Trace) :
    callsOf (Event.errLine s :: es) = callsOf es := rfl

@[simp] lemma callsOf_cons_call (c : MutCall) (es : Trace) :
    callsOf (Event.call c :: es) = c :: callsOf es := rfl

@[simp] lemma callsOf_append (a b : Trace) :
    callsOf (a ++ b) = callsOf a ++ callsOf b :=
  List.filterMap_append a b _

lemma callsOf_flatMap {α : Type} (f : α → Trace) (l : List α) :
    callsOf (l.flatMap f) = l.flatMap (fun x => callsOf (f x)) := by
  induction l with
  | nil => rfl
  | cons h t ih => simp [List.flatMap_cons, ih]

@[simp] lemma queriesOf_nil : queriesOf [] = [] := rfl

@[simp] lemma queriesOf_cons_query (q : Query) (es : Trace) :
    queriesOf (Event.query q :: es) = q :: queriesOf es := rfl

@[simp] lemma queriesOf_cons_log (s : String) (es : Trace) :
    queriesOf (Event.log s :: es) = queriesOf es := rfl

@[simp] lemma queriesOf_cons_ok (s : String) (es : Trace) :
    queriesOf (Event.okLine s :: es) = queriesOf es := rfl

@[simp] lemma queriesOf_cons_err (s : String) (es : Trace) :
    queriesOf (Event.errLine s :: es) = queriesOf es := rfl

@[simp] lemma queriesOf_cons_call (c : MutCall) (es : Trace) :
    queriesOf (Event.call c :: es) = queriesOf es := rfl

@[simp] lemma queriesOf_append (a b : Trace) :
    queriesOf (a ++ b) = queriesOf a ++ queriesOf b :=
  List.filterMap_append a b _

lemma queriesOf_flatMap {α : Type} (f : α → Trace) (l : List α) :
    queriesOf (l.flatMap f) = l.flatMap (fun x => queriesOf (f x)) := by
  induction l with
  | nil => rfl
  | cons h t ih => simp [List.flatMap_cons, ih]

@[simp] lemma logsOf_nil : logsOf [] = [] := rfl

@[simp] lemma logsOf_cons_query (q : Query) (es : Trace) :
    logsOf (Event.query q :: es) = logsOf es := rfl

@[simp] lemma logsOf_cons_log (s : String) (es : Trace) :
    logsOf (Event.log s :: es) = s :: logsOf es := rfl

@[simp] lemma logsOf_cons_ok (s : String) (es : Trace) :
    logsOf (Event.okLine s :: es) = logsOf es := rfl

@[simp] lemma logsOf_cons_err (s : String) (es : Trace) :
    logsOf (Event.errLine s :: es) = logsOf es := rfl

@[simp] lemma logsOf_cons_call (c : MutCall) (es : Trace) :
    logsOf (Event.call c :: es) = logsOf es := rfl

@[simp] lemma logsOf_append (a b : Trace) :
    logsOf (a ++ b) = logsOf a ++ logsOf b :=
  List.filterMap_append a b _

lemma logsOf_flatMap {α : Type} (f : α → Trace) (l : List α) :
    logsOf (l.flatMap f) = l.flatMap (fun x => logsOf (f x)) := by
  induction l with
  | nil => rfl
  | cons h t ih => simp [List.flatMap_cons, ih]

lemma seqE_fst (a : Trace × Bool) (k : Unit → Trace × Bool) :
    (seqE a k).1 = a.1 ++ (if a.2 then (k ()).1 else []) := by
  rcases a with ⟨es, b⟩
  cases b <;> simp [seqE]

lemma seqE_snd (a : Trace × Bool) (k : Unit → Trace × Bool) :
    (seqE a k).2 = (a.2 && (k ()).2) := by
  rcases a with ⟨es, b⟩
  cases b <;> simp [seqE]

lemma seqE_fst_of_true {a : Trace × Bool} (k : Unit → Trace × Bool) (h : a.2 = true) :
    (seqE a k).1 = a.1 ++ (k ()).1 := by
  rw [seqE_fst, h]
  simp

/-! Stage-index bounds: every mutating call a stage emits carries that
stage's index. -/

lemma callsAt_nil (n : Nat) : CallsAt [] n := by
  intro c hc
  simp at hc

lemma callsAt_append {a b : Trace} {n : Nat} (ha : CallsAt a n) (hb : CallsAt b n) :
    CallsAt (a ++ b) n := by
  intro c hc
  rw [callsOf_append, List.mem_append] at hc
  rcases hc with h | h
  · exact ha c h
  · exact hb c h

lemma callsAt_flatMap {α : Type} {f : α → Trace} {l : List α} {n : Nat}
    (h : ∀ x, CallsAt (f x) n) : CallsAt (l.flatMap f) n := by
  intro c hc
  rw [callsOf_flatMap] at hc
  rw [List.mem_flatMap] at hc
  obtain ⟨x, _, hx⟩ := hc
  exact h x c hx

lemma callsAt_seqE {a : Trace × Bool} {k : Unit → Trace × Bool} {n : Nat}
    (ha : CallsAt a.1 n) (hk : CallsAt (k ()).1 n) : CallsAt (seqE a k).1 n := by
  intro c hc
  rw [seqE_fst] at hc
  rw [callsOf_append, List.mem_append] at hc
  rcases hc with h | h
  · exact ha c h
  · rcases a with ⟨es, b⟩
    cases b
    · simp at h
    · exact hk c (by simpa using h)

lemma callsAt_forE {α : Type} {f : α → Trace × Bool} {n : Nat}
    (h : ∀ x, CallsAt (f x).1 n) : ∀ l : List α, CallsAt (forE f l).1 n := by
  intro l
  induction l with
  | nil => exact callsAt_nil n
  | cons x xs ih => exact callsAt_seqE (h x) ih

lemma callsAt_terminateInstances (st : AwsState) (dry : Bool) :
    ∀ l, CallsAt (terminateInstances st dry l).1 0 := by
  intro l
  induction l with
  | nil => exact callsAt_nil 0
  | cons i rest ih =>
    intro c hc
    simp only [terminateInstances] at hc
    split_ifs at hc
    · simp only [callsOf_cons_log] at hc
      exact ih c hc
    · simp at hc
      subst hc
      rfl
    · simp only [callsOf_cons_log, callsOf_cons_call, callsOf_cons_ok, List.mem_cons] at hc
      rcases hc with rfl | hc
      · rfl
      · exact ih c hc

lemma callsAt_instancesStage (st : AwsState) (dry : Bool) (v : String) :
    CallsAt (instancesStage st dry v).1 0 := by
  refine callsAt_seqE ?_ ?_
  · intro c hc
    simp at hc
  · exact callsAt_forE (fun s => callsAt_seqE (by intro c hc; simp at hc)
      (callsAt_terminateInstances st dry s.instances)) st.subnets

lemma callsAt_rtaDelete (st : AwsState) (dry : Bool) (rta : RTAssoc) :
    CallsAt (rtaDelete st dry rta) 1 := by
  intro c hc
  simp only [rtaDelete] at hc
  split_ifs at hc <;> simp_all [stageIdx]

lemma callsAt_routeDelete (st : AwsState) (dry : Bool) (rtId r : String) :
    CallsAt (routeDelete st dry rtId r) 1 := by
  intro c hc
  simp only [routeDelete] at hc
  split_ifs at hc <;> simp_all [stageIdx]

lemma callsAt_routeTableProcess (st : AwsState) (dry : Bool) (rt : RouteTable) :
    CallsAt (routeTableProcess st dry rt) 1 := by
  refine callsAt_append (callsAt_append ?_ ?_) ?_
  · exact callsAt_flatMap (callsAt_rtaDelete st dry)
  · exact callsAt_flatMap (callsAt_routeDelete st dry rt.rtId)
  · intro c hc
    split_ifs at hc <;> simp_all [stageIdx]

lemma callsAt_routeTablesStage (st : AwsState) (dry : Bool) (v : String) :
    CallsAt (routeTablesStage st dry v) 1 := by
  intro c hc
  simp only [routeTablesStage, callsOf_cons_query] at hc
  exact callsAt_flatMap (callsAt_routeTableProcess st dry) c hc

lemma callsAt_igwProcess (st : AwsState) (dry : Bool) (g : String) :
    CallsAt (igwProcess st dry g) 2 := by
  intro c hc
  simp only [igwProcess] at hc
  split_ifs at hc <;> simp_all [stageIdx] <;> rcases hc with h | h <;> simp_all

lemma callsAt_internetGatewaysStage (st : AwsState) (dry : Bool) (args : CliArgs) :
    CallsAt (internetGatewaysStage st dry args) 2 := by
  intro c hc
  simp only [internetGatewaysStage, callsOf_cons_query] at hc
  exact callsAt_flatMap (callsAt_igwProcess st dry) c hc

lemma callsAt_natProcess (st : AwsState) (dry : Bool) (g : String) :
    CallsAt (natProcess st dry g) 3 := by
  intro c hc
  simp only [natProcess] at hc
  split_ifs at hc <;> simp_all [stageIdx]

lemma callsAt_natGatewaysStage (st : AwsState) (dry : Bool) (v : String) :
    CallsAt (natGatewaysStage st dry v) 3 := by
  intro c hc
  simp only [natGatewaysStage, callsOf_cons_query] at hc
  exact callsAt_flatMap (callsAt_natProcess st dry) c hc

lemma callsAt_eipProcess (st : AwsState) (dry : Bool) (eip : String) :
    CallsAt (eipProcess st dry eip) 4 := by
  intro c hc
  simp only [eipProcess] at hc
  split_ifs at hc <;> simp_all [stageIdx]

lemma callsAt_addressesStage (st : AwsState) (dry : Bool) (args : CliArgs) :
    CallsAt (addressesStage st dry args) 4 := by
  intro c hc
  simp only [addressesStage, callsOf_cons_query] at hc
  exact callsAt_flatMap (callsAt_eipProcess st dry) c hc

lemma callsAt_subnetProcess (st : AwsState) (dry : Bool) (s : Subnet) :
    CallsAt (subnetProcess st dry s) 5 := by
  intro c hc
  simp only [subnetProcess] at hc
  split_ifs at hc <;> simp_all [stageIdx]

lemma callsAt_subnetsStage (st : AwsState) (dry : Bool) (v : String) :
    CallsAt (subnetsStage st dry v) 5 := by
  intro c hc
  simp only [subnetsStage, callsOf_cons_query] at hc
  exact callsAt_flatMap (callsAt_subnetProcess st dry) c hc

lemma callsAt_endpointsLoop (st : AwsState) (dry : Bool) :
    ∀ l, CallsAt (endpointsLoop st dry l).1 6 := by
  intro l
  induction l with
  | nil => exact callsAt_nil 6
  | cons ep rest ih =>
    intro c hc
    simp only [endpointsLoop] at hc
    split_ifs at hc
    · simp only [callsOf_cons_log] at hc
      exact ih c hc
    · simp at hc
      subst hc
      rfl
    · simp only [callsOf_cons_log, callsOf_cons_call, List.mem_cons] at hc
      rcases hc with rfl | hc
      · rfl
      · exact ih c hc

lemma callsAt_endpointsStage (st : AwsState) (dry : Bool) (v : String) :
    CallsAt (endpointsStage st dry v).1 6 := by
  refine callsAt_seqE ?_ (callsAt_endpointsLoop st dry st.vpcEndpoints)
  intro c hc
  simp at hc

/-- The calls the shared revoke-and-delete body issues, branch by branch:
straight delete when ip_permissions is empty; otherwise the sequence stops at
the first rejected call. -/
lemma sgTryDelete_calls (st : AwsState) (sg : SecurityGroup) :
    callsOf (sgTryDelete st sg).1 =
      if sg.ipPermissions = [] then [MutCall.deleteSecurityGroup sg.groupId]
      else if st.rejects (MutCall.revokeIngress sg.groupId sg.ipPermissions) then
        [MutCall.revokeIngress sg.groupId sg.ipPermissions]
      else if st.rejects (MutCall.revokeEgress sg.groupId sg.ipPermissions) then
        [MutCall.revokeIngress sg.groupId sg.ipPermissions,
         MutCall.revokeEgress sg.groupId sg.ipPermissions]
      else
        [MutCall.revokeIngress sg.groupId sg.ipPermissions,
         MutCall.revokeEgress sg.groupId sg.ipPermissions,
         MutCall.deleteSecurityGroup sg.groupId] := by
  simp only [sgTryDelete]
  split_ifs <;> simp_all

/-- Whether the shared revoke-and-delete body succeeds: the revocations (when
attempted) and the delete must all be accepted. -/
lemma sgTryDelete_snd (st : AwsState) (sg : SecurityGroup) :
    (sgTryDelete st sg).2 =
      ((sg.ipPermissions = [] ∨
        (st.rejects (MutCall.revokeIngress sg.groupId sg.ipPermissions) = false ∧
         st.rejects (MutCall.revokeEgress sg.groupId sg.ipPermissions) = false)) ∧
       st.rejects (MutCall.deleteSecurityGroup sg.groupId) = false : Bool) := by
  simp only [sgTryDelete]
  split_ifs <;> simp_all

lemma callsAt_sgTryDelete (st : AwsState) (sg : SecurityGroup) :
    CallsAt (sgTryDelete st sg).1 7 := by
  intro c hc
  rw [sgTryDelete_calls] at hc
  split_ifs at hc <;> fin_cases hc <;> rfl

lemma callsAt_sgFirstPassOne (st : AwsState) (dry : Bool) (sg : SecurityGroup) :
    CallsAt (sgFirstPassOne st dry sg).1 7 := by
  intro c hc
  simp only [sgFirstPassOne] at hc
  split_ifs at hc
  · simp at hc
  · simp at hc
  · simp only [callsOf_cons_log, callsOf_append, List.mem_append] at hc
    rcases hc with hc | hc
    · exact callsAt_sgTryDelete st sg c hc
    · simp at hc
  · simp only [callsOf_cons_log, callsOf_append, List.mem_append] at hc
    rcases hc with hc | hc
    · exact callsAt_sgTryDelete st sg c hc
    · simp at hc

lemma callsAt_sgFirstPassLoop (st : AwsState) (dry : Bool) :
    ∀ l, CallsAt (sgFirstPassLoop st dry l).1 7 := by
  intro l
  induction l with
  | nil => exact callsAt_nil 7
  | cons sg rest ih =>
    intro c hc
    simp only [sgFirstPassLoop] at hc
    rw [callsOf_append, List.mem_append] at hc
    rcases hc with h | h
    · exact callsAt_sgFirstPassOne st dry sg c h
    · exact ih c h

lemma callsAt_sgRetryOne (st : AwsState) (sg : SecurityGroup) :
    CallsAt (sgRetryOne st sg) 7 := by
  intro c hc
  simp only [sgRetryOne] at hc
  split_ifs at hc <;> simp_all <;> exact callsAt_sgTryDelete st sg c hc

lemma callsAt_sgRetryPass (st : AwsState) (failures : List SecurityGroup) :
    CallsAt (sgRetryPass st failures) 7 := by
  intro c hc
  simp only [sgRetryPass] at hc
  split_ifs at hc
  · exact callsAt_flatMap (callsAt_sgRetryOne st) c hc
  · simp at hc

lemma callsAt_securityGroupsStage (st : AwsState) (dry : Bool) (v : String) :
    CallsAt (securityGroupsStage st dry v) 7 := by
  intro c hc
  simp only [securityGroupsStage, callsOf_cons_query] at hc
  rw [callsOf_append, List.mem_append] at hc
  rcases hc with h | h
  · exact callsAt_sgFirstPassLoop st dry st.securityGroups c h
  · exact callsAt_sgRetryPass st _ c h

lemma callsAt_eniProcess (st : AwsState) (dry : Bool) (eni : String) :
    CallsAt (eniProcess st dry eni) 8 := by
  intro c hc
  simp only [eniProcess] at hc
  split_ifs at hc <;> simp_all [stageIdx]

lemma callsAt_networkInterfacesStage (st : AwsState) (dry : Bool) (v : String) :
    CallsAt (networkInterfacesStage st dry v) 8 := by
  intro c hc
  simp only [networkInterfacesStage, callsOf_cons_query] at hc
  refine callsAt_flatMap (fun s => ?_) c hc
  intro d hd
  simp only [callsOf_cons_query] at hd
  exact callsAt_flatMap (callsAt_eniProcess st dry) d hd

lemma callsAt_peeringProcess (st : AwsState) (dry : Bool) (p : String) :
    CallsAt (peeringProcess st dry p).1 9 := by
  intro c hc
  simp only [peeringProcess] at hc
  split_ifs at hc <;> simp_all [stageIdx]

lemma callsAt_peeringStage (st : AwsState) (dry : Bool) (v : String) :
    CallsAt (peeringStage st dry v).1 9 := by
  intro c hc
  simp only [peeringStage, callsOf_cons_query] at hc
  rw [callsOf_flatMap, List.mem_flatMap] at hc
  obtain ⟨x, hx, hcx⟩ := hc
  rw [List.mem_map] at hx
  obtain ⟨p, _, rfl⟩ := hx
  exact callsAt_peeringProcess st dry p c hcx

lemma callsAt_aclLoop (st : AwsState) (dry : Bool) :
    ∀ l, CallsAt (aclLoop st dry l).1 10 := by
  intro l
  induction l with
  | nil => exact callsAt_nil 10
  | cons acl rest ih =>
    intro c hc
    simp only [aclLoop] at hc
    split_ifs at hc
    · exact ih c hc
    · simp only [callsOf_cons_log] at hc
      exact ih c hc
    · simp at hc
      subst hc
      rfl
    · simp only [callsOf_cons_log, callsOf_cons_call, callsOf_cons_ok, List.mem_cons] at hc
      rcases hc with rfl | hc
      · rfl
      · exact ih c hc

lemma callsAt_aclStage (st : AwsState) (dry : Bool) (v : String) :
    CallsAt (aclStage st dry v).1 10 := by
  refine callsAt_seqE ?_ (callsAt_aclLoop st dry st.networkAcls)
  intro c hc
  simp at hc

lemma callsAt_vpcDeleteStage (st : AwsState) (dry : Bool) (v : String) :
    CallsAt (vpcDeleteStage st dry v) 11 := by
  intro c hc
  simp only [vpcDeleteStage] at hc
  split_ifs at hc <;> simp_all [stageIdx]

/-! Monotonicity of the stage indices along the whole run (claim C1). -/

lemma idxSorted_of_callsAt {es : Trace} {n : Nat} (h : CallsAt es n) : IdxSorted es := by
  unfold IdxSorted callIdxs
  rw [List.pairwise_map]
  refine List.pairwise_of_forall_mem_list (fun a ha b hb => ?_)
  rw [h a ha, h b hb]

lemma idxSorted_block {a rest : Trace} {b : Bool} {p m : Nat}
    (hlm : p ≤ m)
    (h1 : IdxSorted a)
    (hb1u : ∀ c ∈ callsOf a, stageIdx c ≤ m)
    (hb1l : ∀ c ∈ callsOf a, p ≤ stageIdx c)
    (h2 : IdxSorted rest)
    (hb2l : ∀ c ∈ callsOf rest, m ≤ stageIdx c) :
    IdxSorted (a ++ if b then rest else []) ∧
      ∀ c ∈ callsOf (a ++ if b then rest else []), p ≤ stageIdx c := by
  cases b
  · simp only [if_neg Bool.false_ne_true, List.append_nil]
    exact ⟨h1, hb1l⟩
  · simp only [if_pos rfl]
    constructor
    · unfold IdxSorted callIdxs at h1 h2 ⊢
      rw [callsOf_append, List.map_append, List.pairwise_append]
      refine ⟨h1, h2, ?_⟩
      intro x hx y hy
      rw [List.mem_map] at hx hy
      obtain ⟨cx, hcx, rfl⟩ := hx
      obtain ⟨cy, hcy, rfl⟩ := hy
      exact le_trans (hb1u cx hcx) (hb2l cy hcy)
    · intro c hc
      rw [callsOf_append, List.mem_append] at hc
      rcases hc with h | h
      · exact hb1l c h
      · exact le_trans hlm (hb2l c h)

/-- Package a single-stage trace for the chain lemma. -/
lemma idxChain_of_callsAt {es : Trace} {n : Nat} (h : CallsAt es n) :
    IdxSorted es ∧ (∀ c ∈ callsOf es, stageIdx c ≤ n) ∧
      ∀ c ∈ callsOf es, n ≤ stageIdx c := by
  refine ⟨idxSorted_of_callsAt h, fun c hc => le_of_eq (h c hc),
    fun c hc => ge_of_eq (h c hc)⟩

lemma idxSorted_vpc_cleanup (args : CliArgs) (st : AwsState) (vpcid : Option String) :
    IdxSorted (vpc_cleanup args st vpcid).1 ∧
      ∀ c ∈ callsOf (vpc_cleanup args st vpcid).1, 0 ≤ stageIdx c := by
  have hd : IdxSorted [Event.log "VPC id was not provided. Exiting"] := by
    unfold IdxSorted callIdxs
    simp
  rcases vpcid with _ | v
  · exact ⟨hd, by intro c hc; exact Nat.zero_le _⟩
  · simp only [vpc_cleanup]
    by_cases hv : v == ""
    · rw [if_pos hv]
      exact ⟨hd, by intro c hc; exact Nat.zero_le _⟩
    · rw [if_neg hv]
      simp only [seqE_fst]
      obtain ⟨s12a, s12b, s12c⟩ := idxChain_of_callsAt (callsAt_vpcDeleteStage st args.dryRun v)
      obtain ⟨s11a, s11b, s11c⟩ := idxChain_of_callsAt (callsAt_aclStage st args.dryRun v)
      obtain ⟨s10a, s10b, s10c⟩ := idxChain_of_callsAt (callsAt_peeringStage st args.dryRun v)
      obtain ⟨s9a, s9b, s9c⟩ := idxChain_of_callsAt (callsAt_networkInterfacesStage st args.dryRun v)
      obtain ⟨s8a, s8b, s8c⟩ := idxChain_of_callsAt (callsAt_securityGroupsStage st args.dryRun v)
      obtain ⟨s7a, s7b, s7c⟩ := idxChain_of_callsAt (callsAt_endpointsStage st args.dryRun v)
      obtain ⟨s6a, s6b, s6c⟩ := idxChain_of_callsAt (callsAt_subnetsStage st args.dryRun v)
      obtain ⟨s5a, s5b, s5c⟩ := idxChain_of_callsAt (callsAt_addressesStage st args.dryRun args)
      obtain ⟨s4a, s4b, s4c⟩ := idxChain_of_callsAt (callsAt_natGatewaysStage st args.dryRun v)
      obtain ⟨s3a, s3b, s3c⟩ := idxChain_of_callsAt (callsAt_internetGatewaysStage st args.dryRun args)
      obtain ⟨s2a, s2b, s2c⟩ := idxChain_of_callsAt (callsAt_routeTablesStage st args.dryRun v)
      obtain ⟨s1a, s1b, s1c⟩ := idxChain_of_callsAt (callsAt_instancesStage st args.dryRun v)
      have t11 := idxSorted_block (b := (aclStage st args.dryRun v).2) (p := 10) (m := 10)
        (le_refl 10) s11a s11b s11c s12a
        (fun c hc => le_trans (by norm_num) (s12c c hc))
      have t10 := idxSorted_block (b := true) (p := 9) (m := 9) (le_refl 9)
        s10a s10b s10c t11.1
        (fun c hc => le_trans (by norm_num) (t11.2 c hc))
      have t9 := idxSorted_block (b := true) (p := 8) (m := 8) (le_refl 8)
        s9a s9b s9c t10.1
        (fun c hc => le_trans (by norm_num) (t10.2 c hc))
      have t8 := idxSorted_block (b := true) (p := 7) (m := 7)
        (le_refl 7) s8a s8b s8c t9.1
        (fun c hc => le_trans (by norm_num) (t9.2 c hc))
      have t7 := idxSorted_block (b := (endpointsStage st args.dryRun v).2) (p := 6) (m := 6)
        (le_refl 6) s7a s7b s7c t8.1
        (fun c hc => le_trans (by norm_num) (t8.2 c hc))
      have t6 := idxSorted_block (b := true) (p := 5) (m := 5) (le_refl 5)
        s6a s6b s6c t7.1
        (fun c hc => le_trans (by norm_num) (t7.2 c hc))
      have t5 := idxSorted_block (b := true) (p := 4) (m := 4) (le_refl 4)
        s5a s5b s5c t6.1
        (fun c hc => le_trans (by norm_num) (t6.2 c hc))
      have t4 := idxSorted_block (b := true) (p := 3) (m := 3) (le_refl 3)
        s4a s4b s4c t5.1
        (fun c hc => le_trans (by norm_num) (t5.2 c hc))
      have t3 := idxSorted_block (b := true) (p := 2) (m := 2) (le_refl 2)
        s3a s3b s3c t4.1
        (fun c hc => le_trans (by norm_num) (t4.2 c hc))
      have t2 := idxSorted_block (b := true) (p := 1) (m := 1)
        (le_refl 1) s2a s2b s2c t3.1
        (fun c hc => le_trans (by norm_num) (t3.2 c hc))
      have t1 := idxSorted_block (b := (instancesStage st args.dryRun v).2) (p := 0) (m := 0)
        (le_refl 0) s1a s1b s1c t2.1
        (fun c hc => Nat.zero_le _)
      have t0 := idxSorted_block
        (a := [Event.log ("Starting to Removing VPC artefacts: " ++ v)])
        (b := true) (p := 0) (m := 0) (le_refl 0)
        (by unfold IdxSorted callIdxs; simp)
        (by intro c hc; simp at hc)
        (by intro c hc; simp at hc)
        t1.1 (fun c hc => Nat.zero_le _)
      exact t0

/-! Completion: the run aborts only when one of the three unguarded calls
(instance termination, endpoint deletion, network-ACL deletion) is rejected
in a live run. -/

lemma forE_snd_true {α : Type} {f : α → Trace × Bool} (h : ∀ x, (f x).2 = true) :
    ∀ l : List α, (forE f l).2 = true := by
  intro l
  induction l with
  | nil => rfl
  | cons x xs ih =>
    rw [forE, seqE_snd, h x, ih]
    rfl

lemma terminateInstances_snd (st : AwsState) (dry : Bool)
    (hok : dry = true ∨ ∀ i, st.rejects (MutCall.terminateInstance i) = false) :
    ∀ l, (terminateInstances st dry l).2 = true := by
  intro l
  induction l with
  | nil => rfl
  | cons i rest ih =>
    simp only [terminateInstances]
    rcases hok with hd | hr
    · rw [if_pos hd]
      exact ih
    · split_ifs with h1 h2
      · exact ih
      · rw [hr i] at h2
        exact absurd h2 (by simp)
      · exact ih

lemma instancesStage_snd (st : AwsState) (dry : Bool) (v : String)
    (hok : dry = true ∨ ∀ i, st.rejects (MutCall.terminateInstance i) = false) :
    (instancesStage st dry v).2 = true := by
  rw [instancesStage, seqE_snd]
  rw [forE_snd_true (fun s => by
    rw [seqE_snd, terminateInstances_snd st dry hok s.instances]
    rfl)]
  rfl

lemma endpointsLoop_snd (st : AwsState) (dry : Bool)
    (hok : dry = true ∨ ∀ e, st.rejects (MutCall.deleteVpcEndpoint e) = false) :
    ∀ l, (endpointsLoop st dry l).2 = true := by
  intro l
  induction l with
  | nil => rfl
  | cons ep rest ih =>
    simp only [endpointsLoop]
    rcases hok with hd | hr
    · rw [if_pos hd]
      exact ih
    · split_ifs with h1 h2
      · exact ih
      · rw [hr ep] at h2
        exact absurd h2 (by simp)
      · exact ih

lemma endpointsStage_snd (st : AwsState) (dry : Bool) (v : String)
    (hok : dry = true ∨ ∀ e, st.rejects (MutCall.deleteVpcEndpoint e) = false) :
    (endpointsStage st dry v).2 = true := by
  rw [endpointsStage, seqE_snd, endpointsLoop_snd st dry hok]
  rfl

lemma aclLoop_snd (st : AwsState) (dry : Bool)
    (hok : dry = true ∨ ∀ a, st.rejects (MutCall.deleteNetworkAcl a) = false) :
    ∀ l, (aclLoop st dry l).2 = true := by
  intro l
  induction l with
  | nil => rfl
  | cons acl rest ih =>
    simp only [aclLoop]
    split_ifs with h1 h2 h3
    · exact ih
    · exact ih
    · rcases hok with hd | hr
      · rw [hd] at h2
        exact absurd h2 (by simp)
      · rw [hr acl.aclId] at h3
        exact absurd h3 (by simp)
    · exact ih

lemma aclStage_snd (st : AwsState) (dry : Bool) (v : String)
    (hok : dry = true ∨ ∀ a, st.rejects (MutCall.deleteNetworkAcl a) = false) :
    (aclStage st dry v).2 = true := by
  rw [aclStage, seqE_snd, aclLoop_snd st dry hok]
  rfl

/-- Under no fatal rejections (or in a dry run) the whole procedure runs to
completion. -/
lemma vpc_cleanup_snd (args : CliArgs) (st : AwsState) (vpcid : Option String)
    (hok : args.dryRun = true ∨ NoFatalRejects st) :
    (vpc_cleanup args st vpcid).2 = true := by
  rcases vpcid with _ | v
  · rfl
  · simp only [vpc_cleanup]
    split_ifs with hv
    · rfl
    · simp only [seqE_snd,
        instancesStage_snd st args.dryRun v (hok.imp id (fun h => h.1)),
        endpointsStage_snd st args.dryRun v (hok.imp id (fun h => h.2.1)),
        aclStage_snd st args.dryRun v (hok.imp id (fun h => h.2.2))]
      rfl

/-- When none of the three unguarded stages aborts, the run trace is the
plain concatenation of the thirteen stage traces. -/
lemma vpc_cleanup_trace_split (args : CliArgs) (st : AwsState) (v : String)
    (hv : (v == "") = false)
    (h1 : (instancesStage st args.dryRun v).2 = true)
    (h7 : (endpointsStage st args.dryRun v).2 = true)
    (h11 : (aclStage st args.dryRun v).2 = true) :
    (vpc_cleanup args st (some v)).1 =
      Event.log ("Starting to Removing VPC artefacts: " ++ v) ::
      (instancesStage st args.dryRun v).1 ++
      routeTablesStage st args.dryRun v ++
      internetGatewaysStage st args.dryRun args ++
      natGatewaysStage st args.dryRun v ++
      addressesStage st args.dryRun args ++
      subnetsStage st args.dryRun v ++
      (endpointsStage st args.dryRun v).1 ++
      securityGroupsStage st args.dryRun v ++
      networkInterfacesStage st args.dryRun v ++
      (peeringStage st args.dryRun v).1 ++
      (aclStage st args.dryRun v).1 ++
      vpcDeleteStage st args.dryRun v := by
  simp only [vpc_cleanup]
  rw [if_neg (by simp [hv])]
  rw [seqE_fst_of_true _ (by rfl)]
  rw [seqE_fst_of_true _ h1]
  rw [seqE_fst_of_true _ (by rfl)]
  rw [seqE_fst_of_true _ (by rfl)]
  rw [seqE_fst_of_true _ (by rfl)]
  rw [seqE_fst_of_true _ (by rfl)]
  rw [seqE_fst_of_true _ (by rfl)]
  rw [seqE_fst_of_true _ h7]
  rw [seqE_fst_of_true _ (by rfl)]
  rw [seqE_fst_of_true _ (by rfl)]
  rw [seqE_fst_of_true _ (by rfl)]
  rw [seqE_fst_of_true _ h11]
  simp [List.append_assoc]

/-! Per-stage observer characterizations: which queries, announcement lines
and (in a dry run) mutating calls each stage emits. -/

lemma flatMap_nil_fun {α β : Type} (l : List α) :
    l.flatMap (fun _ => ([] : List β)) = [] := by
  induction l with
  | nil => rfl
  | cons x xs ih => simp [List.flatMap_cons, ih]

lemma flatMap_if_singleton {α β : Type} (p : α → Bool) (f : α → β) (l : List α) :
    l.flatMap (fun a => if p a then [f a] else []) = (l.filter p).map f := by
  induction l with
  | nil => rfl
  | cons x xs ih =>
    by_cases hx : p x <;> simp [List.flatMap_cons, List.filter_cons, hx, ih]

lemma flatMap_singleton_fun {α β : Type} (f : α → β) (l : List α) :
    l.flatMap (fun a => [f a]) = l.map f := by
  induction l with
  | nil => rfl
  | cons x xs ih => simp [List.flatMap_cons, ih]

lemma queriesOf_terminateInstances (st : AwsState) (dry : Bool) :
    ∀ l, queriesOf (terminateInstances st dry l).1 = [] := by
  intro l
  induction l with
  | nil => rfl
  | cons i rest ih =>
    simp only [terminateInstances]
    split_ifs <;> simp [ih]

lemma logsOf_terminateInstances (st : AwsState) (dry : Bool)
    (hok : dry = true ∨ ∀ i, st.rejects (MutCall.terminateInstance i) = false) :
    ∀ l, logsOf (terminateInstances st dry l).1 =
      l.map (fun i => "Deleting the following Instance: " ++ i) := by
  intro l
  induction l with
  | nil => rfl
  | cons i rest ih =>
    simp only [terminateInstances]
    rcases hok with hd | hr
    · rw [if_pos hd]
      simp [ih]
    · split_ifs with h1 h2
      · simp [ih]
      · rw [hr i] at h2
        exact absurd h2 (by simp)
      · simp [ih]

lemma callsOf_terminateInstances_dry (st : AwsState) :
    ∀ l, callsOf (terminateInstances st true l).1 = [] := by
  intro l
  induction l with
  | nil => rfl
  | cons i rest ih =>
    simp only [terminateInstances]
    simp [ih]

lemma queriesOf_instancesStage (st : AwsState) (dry : Bool) (v : String)
    (hok : dry = true ∨ ∀ i, st.rejects (MutCall.terminateInstance i) = false) :
    queriesOf (instancesStage st dry v).1 =
      Query.listSubnets v :: st.subnets.map (fun s => Query.listInstances s.subnetId) := by
  rw [instancesStage, seqE_fst_of_true _ (by rfl)]
  have h : ∀ l : List Subnet,
      queriesOf (forE (fun s =>
        seqE ([Event.query (Query.listInstances s.subnetId)], true)
          (fun _ => terminateInstances st dry s.instances)) l).1 =
        l.map (fun s => Query.listInstances s.subnetId) := by
    intro l
    induction l with
    | nil => rfl
    | cons s rest ih =>
      rw [forE, seqE_fst_of_true _ (by
        rw [seqE_snd, terminateInstances_snd st dry hok s.instances]
        rfl)]
      rw [seqE_fst_of_true _ (by rfl)]
      simp [queriesOf_terminateInstances, ih]
  simp [h]

lemma logsOf_instancesStage (st : AwsState) (dry : Bool) (v : String)
    (hok : dry = true ∨ ∀ i, st.rejects (MutCall.terminateInstance i) = false) :
    logsOf (instancesStage st dry v).1 =
      st.subnets.flatMap (fun s =>
        s.instances.map (fun i => "Deleting the following Instance: " ++ i)) := by
  rw [instancesStage, seqE_fst_of_true _ (by rfl)]
  have h : ∀ l : List Subnet,
      logsOf (forE (fun s =>
        seqE ([Event.query (Query.listInstances s.subnetId)], true)
          (fun _ => terminateInstances st dry s.instances)) l).1 =
        l.flatMap (fun s =>
          s.instances.map (fun i => "Deleting the following Instance: " ++ i)) := by
    intro l
    induction l with
    | nil => rfl
    | cons s rest ih =>
      rw [forE, seqE_fst_of_true _ (by
        rw [seqE_snd, terminateInstances_snd st dry hok s.instances]
        rfl)]
      rw [seqE_fst_of_true _ (by rfl)]
      simp [List.flatMap_cons, logsOf_terminateInstances st dry hok, ih]
  simp [h]

lemma callsOf_instancesStage_dry (st : AwsState) (v : String) :
    callsOf (instancesStage st true v).1 = [] := by
  rw [instancesStage, seqE_fst_of_true _ (by rfl)]
  have h : ∀ l : List Subnet,
      callsOf (forE (fun s =>
        seqE ([Event.query (Query.listInstances s.subnetId)], true)
          (fun _ => terminateInstances st true s.instances)) l).1 = [] := by
    intro l
    induction l with
    | nil => rfl
    | cons s rest ih =>
      rw [forE, seqE_fst_of_true _ (by
        rw [seqE_snd, terminateInstances_snd st true (Or.inl rfl) s.instances]
        rfl)]
      rw [seqE_fst_of_true _ (by rfl)]
      simp [callsOf_terminateInstances_dry, ih]
  simp [h]

lemma logsOf_rtaDelete (st : AwsState) (dry : Bool) (rta : RTAssoc) :
    logsOf (rtaDelete st dry rta) =
      ["Deleting the following routing table associations: " ++ rta.rtaId] := by
  simp only [rtaDelete]
  split_ifs <;> simp

lemma queriesOf_rtaDelete (st : AwsState) (dry : Bool) (rta : RTAssoc) :
    queriesOf (rtaDelete st dry rta) = [] := by
  simp only [rtaDelete]
  split_ifs <;> simp

lemma callsOf_rtaDelete (st : AwsState) (dry : Bool) (rta : RTAssoc) :
    callsOf (rtaDelete st dry rta) =
      if !rta.main && !dry then [MutCall.deleteRouteTableAssoc rta.rtaId] else [] := by
  simp only [rtaDelete]
  split_ifs <;> simp_all

lemma logsOf_routeDelete (st : AwsState) (dry : Bool) (rtId r : String) :
    logsOf (routeDelete st dry rtId r) =
      ["Deleting the following routing table routes: " ++ r] := by
  simp only [routeDelete]
  split_ifs <;> simp

lemma queriesOf_routeDelete (st : AwsState) (dry : Bool) (rtId r : String) :
    queriesOf (routeDelete st dry rtId r) = [] := by
  simp only [routeDelete]
  split_ifs <;> simp

lemma callsOf_routeDelete (st : AwsState) (dry : Bool) (rtId r : String) :
    callsOf (routeDelete st dry rtId r) =
      if !dry then [MutCall.deleteRoute rtId r] else [] := by
  simp only [routeDelete]
  split_ifs <;> simp_all

lemma callsOf_rta_flatMap (st : AwsState) (l : List RTAssoc) :
    callsOf (l.flatMap (rtaDelete st false)) =
      (l.filter (fun a => !a.main)).map (fun a => MutCall.deleteRouteTableAssoc a.rtaId) := by
  induction l with
  | nil => rfl
  | cons a rest ih =>
    simp only [List.flatMap_cons, callsOf_append, callsOf_rtaDelete, List.filter_cons]
    cases ha : a.main <;> simp_all

lemma callsOf_route_flatMap (st : AwsState) (rtId : String) (l : List String) :
    callsOf (l.flatMap (routeDelete st false rtId)) = l.map (MutCall.deleteRoute rtId) := by
  induction l with
  | nil => rfl
  | cons r rest ih =>
    simp only [List.flatMap_cons, callsOf_append, callsOf_routeDelete]
    simp [ih]

lemma callsOf_routeTableProcess (st : AwsState) (dry : Bool) (rt : RouteTable) :
    callsOf (routeTableProcess st dry rt) =
      if dry then [] else
        ((rt.associations.filter (fun a => !a.main)).map
          (fun a => MutCall.deleteRouteTableAssoc a.rtaId)) ++
        (rt.routes.map (MutCall.deleteRoute rt.rtId)) ++
        [MutCall.deleteRouteTable rt.rtId] := by
  cases dry
  · simp only [routeTableProcess, callsOf_append, callsOf_rta_flatMap, callsOf_route_flatMap,
      if_neg Bool.false_ne_true]
    split_ifs <;> simp_all
  · simp only [routeTableProcess, callsOf_append, callsOf_flatMap, callsOf_rtaDelete,
      callsOf_routeDelete, Bool.not_true, Bool.and_false, if_pos rfl]
    simp [flatMap_nil_fun]

lemma logsOf_routeTableProcess (st : AwsState) (dry : Bool) (rt : RouteTable) :
    logsOf (routeTableProcess st dry rt) =
      (rt.associations.map
        (fun a => "Deleting the following routing table associations: " ++ a.rtaId)) ++
      (rt.routes.map (fun r => "Deleting the following routing table routes: " ++ r)) ++
      ["Deleting the routing table: " ++ rt.rtId] := by
  simp only [routeTableProcess, logsOf_append, logsOf_flatMap, logsOf_rtaDelete,
    logsOf_routeDelete]
  rw [flatMap_singleton_fun, flatMap_singleton_fun]
  split_ifs <;> simp

lemma queriesOf_routeTableProcess (st : AwsState) (dry : Bool) (rt : RouteTable) :
    queriesOf (routeTableProcess st dry rt) = [] := by
  simp only [routeTableProcess, queriesOf_append, queriesOf_flatMap, queriesOf_rtaDelete,
    queriesOf_routeDelete]
  rw [flatMap_nil_fun, flatMap_nil_fun]
  split_ifs <;> simp

lemma queriesOf_routeTablesStage (st : AwsState) (dry : Bool) (v : String) :
    queriesOf (routeTablesStage st dry v) = [Query.listRouteTables v] := by
  simp [routeTablesStage, queriesOf_flatMap, queriesOf_routeTableProcess, flatMap_nil_fun]

lemma logsOf_routeTablesStage (st : AwsState) (dry : Bool) (v : String) :
    logsOf (routeTablesStage st dry v) =
      st.routeTables.flatMap (fun rt =>
        (rt.associations.map
          (fun a => "Deleting the following routing table associations: " ++ a.rtaId)) ++
        (rt.routes.map (fun r => "Deleting the following routing table routes: " ++ r)) ++
        ["Deleting the routing table: " ++ rt.rtId]) := by
  simp only [routeTablesStage, logsOf_cons_query, logsOf_flatMap, logsOf_routeTableProcess]

lemma callsOf_routeTablesStage_dry (st : AwsState) (v : String) :
    callsOf (routeTablesStage st true v) = [] := by
  simp [routeTablesStage, callsOf_flatMap, callsOf_routeTableProcess, flatMap_nil_fun]

lemma logsOf_igwProcess (st : AwsState) (dry : Bool) (g : String) :
    logsOf (igwProcess st dry g) = ["Deleting internet gateway - " ++ g] := by
  simp only [igwProcess]
  split_ifs <;> simp

lemma queriesOf_igwProcess (st : AwsState) (dry : Bool) (g : String) :
    queriesOf (igwProcess st dry g) = [] := by
  simp only [igwProcess]
  split_ifs <;> simp

lemma callsOf_igwProcess_dry (st : AwsState) (g : String) :
    callsOf (igwProcess st true g) = [] := by
  simp [igwProcess]

lemma queriesOf_internetGatewaysStage (st : AwsState) (dry : Bool) (args : CliArgs) :
    queriesOf (internetGatewaysStage st dry args) =
      [Query.describeInternetGateways (nameFilter args)] := by
  simp [internetGatewaysStage, queriesOf_flatMap, queriesOf_igwProcess, flatMap_nil_fun]

lemma logsOf_internetGatewaysStage (st : AwsState) (dry : Bool) (args : CliArgs) :
    logsOf (internetGatewaysStage st dry args) =
      st.internetGateways.map (fun g => "Deleting internet gateway - " ++ g) := by
  simp [internetGatewaysStage, logsOf_flatMap, logsOf_igwProcess, flatMap_singleton_fun]

lemma callsOf_internetGatewaysStage_dry (st : AwsState) (args : CliArgs) :
    callsOf (internetGatewaysStage st true args) = [] := by
  simp [internetGatewaysStage, callsOf_flatMap, callsOf_igwProcess_dry, flatMap_nil_fun]

lemma logsOf_natProcess (st : AwsState) (dry : Bool) (g : String) :
    logsOf (natProcess st dry g) = ["Deleting NAT gateway - " ++ g] := by
  simp only [natProcess]
  split_ifs <;> simp

lemma queriesOf_natProcess (st : AwsState) (dry : Bool) (g : String) :
    queriesOf (natProcess st dry g) = [] := by
  simp only [natProcess]
  split_ifs <;> simp

lemma callsOf_natProcess_dry (st : AwsState) (g : String) :
    callsOf (natProcess st true g) = [] := by
  simp [natProcess]

lemma queriesOf_natGatewaysStage (st : AwsState) (dry : Bool) (v : String) :
    queriesOf (natGatewaysStage st dry v) =
      [Query.describeNatGateways (DiscoveryFilter.vpcId v)] := by
  simp [natGatewaysStage, queriesOf_flatMap, queriesOf_natProcess, flatMap_nil_fun]

lemma logsOf_natGatewaysStage (st : AwsState) (dry : Bool) (v : String) :
    logsOf (natGatewaysStage st dry v) =
      st.natGateways.map (fun g => "Deleting NAT gateway - " ++ g) := by
  simp [natGatewaysStage, logsOf_flatMap, logsOf_natProcess, flatMap_singleton_fun]

lemma callsOf_natGatewaysStage_dry (st : AwsState) (v : String) :
    callsOf (natGatewaysStage st true v) = [] := by
  simp [natGatewaysStage, callsOf_flatMap, callsOf_natProcess_dry, flatMap_nil_fun]

lemma logsOf_eipProcess (st : AwsState) (dry : Bool) (eip : String) :
    logsOf (eipProcess st dry eip) = ["Releasing Elastic IP: " ++ eip] := by
  simp only [eipProcess]
  split_ifs <;> simp

lemma queriesOf_eipProcess (st : AwsState) (dry : Bool) (eip : String) :
    queriesOf (eipProcess st dry eip) = [] := by
  simp only [eipProcess]
  split_ifs <;> simp

lemma callsOf_eipProcess_dry (st : AwsState) (eip : String) :
    callsOf (eipProcess st true eip) = [] := by
  simp [eipProcess]

lemma queriesOf_addressesStage (st : AwsState) (dry : Bool) (args : CliArgs) :
    queriesOf (addressesStage st dry args) =
      [Query.describeAddresses (nameFilter args)] := by
  simp [addressesStage, queriesOf_flatMap, queriesOf_eipProcess, flatMap_nil_fun]

lemma logsOf_addressesStage (st : AwsState) (dry : Bool) (args : CliArgs) :
    logsOf (addressesStage st dry args) =
      st.addresses.map (fun eip => "Releasing Elastic IP: " ++ eip) := by
  simp [addressesStage, logsOf_flatMap, logsOf_eipProcess, flatMap_singleton_fun]

lemma callsOf_addressesStage_dry (st : AwsState) (args : CliArgs) :
    callsOf (addressesStage st true args) = [] := by
  simp [addressesStage, callsOf_flatMap, callsOf_eipProcess_dry, flatMap_nil_fun]

lemma logsOf_subnetProcess (st : AwsState) (dry : Bool) (s : Subnet) :
    logsOf (subnetProcess st dry s) = ["Deleting subnet: " ++ s.subnetId] := by
  simp only [subnetProcess]
  split_ifs <;> simp

lemma queriesOf_subnetProcess (st : AwsState) (dry : Bool) (s : Subnet) :
    queriesOf (subnetProcess st dry s) = [] := by
  simp only [subnetProcess]
  split_ifs <;> simp

lemma callsOf_subnetProcess_dry (st : AwsState) (s : Subnet) :
    callsOf (subnetProcess st true s) = [] := by
  simp [subnetProcess]

lemma queriesOf_subnetsStage (st : AwsState) (dry : Bool) (v : String) :
    queriesOf (subnetsStage st dry v) = [Query.listSubnets v] := by
  simp [subnetsStage, queriesOf_flatMap, queriesOf_subnetProcess, flatMap_nil_fun]

lemma logsOf_subnetsStage (st : AwsState) (dry : Bool) (v : String) :
    logsOf (subnetsStage st dry v) =
      st.subnets.map (fun s => "Deleting subnet: " ++ s.subnetId) := by
  simp [subnetsStage, logsOf_flatMap, logsOf_subnetProcess, flatMap_singleton_fun]

lemma callsOf_subnetsStage_dry (st : AwsState) (v : String) :
    callsOf (subnetsStage st true v) = [] := by
  simp [subnetsStage, callsOf_flatMap, callsOf_subnetProcess_dry, flatMap_nil_fun]

lemma queriesOf_endpointsLoop (st : AwsState) (dry : Bool) :
    ∀ l, queriesOf (endpointsLoop st dry l).1 = [] := by
  intro l
  induction l with
  | nil => rfl
  | cons ep rest ih =>
    simp only [endpointsLoop]
    split_ifs <;> simp [ih]

lemma logsOf_endpointsLoop (st : AwsState) (dry : Bool)
    (hok : dry = true ∨ ∀ e, st.rejects (MutCall.deleteVpcEndpoint e) = false) :
    ∀ l, logsOf (endpointsLoop st dry l).1 =
      l.map (fun ep => "Deleting endpoint: " ++ ep) := by
  intro l
  induction l with
  | nil => rfl
  | cons ep rest ih =>
    simp only [endpointsLoop]
    rcases hok with hd | hr
    · rw [if_pos hd]
      simp [ih]
    · split_ifs with h1 h2
      · simp [ih]
      · rw [hr ep] at h2
        exact absurd h2 (by simp)
      · simp [ih]

lemma callsOf_endpointsLoop_dry (st : AwsState) :
    ∀ l, callsOf (endpointsLoop st true l).1 = [] := by
  intro l
  induction l with
  | nil => rfl
  | cons ep rest ih =>
    simp only [endpointsLoop]
    simp [ih]

lemma queriesOf_endpointsStage (st : AwsState) (dry : Bool) (v : String) :
    queriesOf (endpointsStage st dry v).1 =
      [Query.describeVpcEndpoints (DiscoveryFilter.vpcId v)] := by
  rw [endpointsStage, seqE_fst_of_true _ (by rfl)]
  simp [queriesOf_endpointsLoop]

lemma logsOf_endpointsStage (st : AwsState) (dry : Bool) (v : String)
    (hok : dry = true ∨ ∀ e, st.rejects (MutCall.deleteVpcEndpoint e) = false) :
    logsOf (endpointsStage st dry v).1 =
      st.vpcEndpoints.map (fun ep => "Deleting endpoint: " ++ ep) := by
  rw [endpointsStage, seqE_fst_of_true _ (by rfl)]
  simp [logsOf_endpointsLoop st dry hok]

lemma callsOf_endpointsStage_dry (st : AwsState) (v : String) :
    callsOf (endpointsStage st true v).1 = [] := by
  rw [endpointsStage, seqE_fst_of_true _ (by rfl)]
  simp [callsOf_endpointsLoop_dry]

lemma logsOf_sgTryDelete (st : AwsState) (sg : SecurityGroup) :
    logsOf (sgTryDelete st sg).1 = [] := by
  simp only [sgTryDelete]
  split_ifs <;> simp

lemma queriesOf_sgTryDelete (st : AwsState) (sg : SecurityGroup) :
    queriesOf (sgTryDelete st sg).1 = [] := by
  simp only [sgTryDelete]
  split_ifs <;> simp

lemma logsOf_sgFirstPassOne (st : AwsState) (dry : Bool) (sg : SecurityGroup) :
    logsOf (sgFirstPassOne st dry sg).1 =
      if sg.groupName = "default" then []
      else ["Deleting Security Group Rules: " ++ sg.groupId] := by
  simp only [sgFirstPassOne]
  split_ifs <;> simp [logsOf_sgTryDelete]

lemma queriesOf_sgFirstPassOne (st : AwsState) (dry : Bool) (sg : SecurityGroup) :
    queriesOf (sgFirstPassOne st dry sg).1 = [] := by
  simp only [sgFirstPassOne]
  split_ifs <;> simp [queriesOf_sgTryDelete]

lemma callsOf_sgFirstPassOne_dry (st : AwsState) (sg : SecurityGroup) :
    callsOf (sgFirstPassOne st true sg).1 = [] := by
  simp only [sgFirstPassOne]
  split_ifs <;> simp

lemma sgFirstPassOne_snd_dry (st : AwsState) (sg : SecurityGroup) :
    (sgFirstPassOne st true sg).2 = [] := by
  simp only [sgFirstPassOne]
  split_ifs <;> simp

lemma logsOf_sgFirstPassLoop (st : AwsState) (dry : Bool) :
    ∀ l, logsOf (sgFirstPassLoop st dry l).1 =
      (l.filter (fun sg => !(sg.groupName = "default" : Bool))).map
        (fun sg => "Deleting Security Group Rules: " ++ sg.groupId) := by
  intro l
  induction l with
  | nil => rfl
  | cons sg rest ih =>
    simp only [sgFirstPassLoop, logsOf_append, logsOf_sgFirstPassOne, List.filter_cons]
    by_cases h : sg.groupName = "default" <;> simp_all

lemma queriesOf_sgFirstPassLoop (st : AwsState) (dry : Bool) :
    ∀ l, queriesOf (sgFirstPassLoop st dry l).1 = [] := by
  intro l
  induction l with
  | nil => rfl
  | cons sg rest ih =>
    simp only [sgFirstPassLoop, queriesOf_append, queriesOf_sgFirstPassOne]
    simp [ih]

lemma callsOf_sgFirstPassLoop_dry (st : AwsState) :
    ∀ l, callsOf (sgFirstPassLoop st true l).1 = [] := by
  intro l
  induction l with
  | nil => rfl
  | cons sg rest ih =>
    simp only [sgFirstPassLoop, callsOf_append, callsOf_sgFirstPassOne_dry]
    simp [ih]

/-- In a dry run the first pass collects no failures at all (the append to
sg_failures sits inside the live-only branch). -/
lemma sgFirstPassLoop_failures_dry (st : AwsState) :
    ∀ l, (sgFirstPassLoop st true l).2 = [] := by
  intro l
  induction l with
  | nil => rfl
  | cons sg rest ih =>
    simp only [sgFirstPassLoop]
    simp [sgFirstPassOne_snd_dry, ih]

lemma logsOf_sgRetryOne (st : AwsState) (sg : SecurityGroup) :
    logsOf (sgRetryOne st sg) = [] := by
  simp only [sgRetryOne]
  split_ifs <;> simp [logsOf_sgTryDelete]

lemma queriesOf_sgRetryOne (st : AwsState) (sg : SecurityGroup) :
    queriesOf (sgRetryOne st sg) = [] := by
  simp only [sgRetryOne]
  split_ifs <;> simp [queriesOf_sgTryDelete]

lemma logsOf_sgRetryPass (st : AwsState) (failures : List SecurityGroup) :
    logsOf (sgRetryPass st failures) = [] := by
  simp only [sgRetryPass]
  split_ifs
  · simp [logsOf_flatMap, logsOf_sgRetryOne, flatMap_nil_fun]
  · rfl

lemma queriesOf_sgRetryPass (st : AwsState) (failures : List SecurityGroup) :
    queriesOf (sgRetryPass st failures) = [] := by
  simp only [sgRetryPass]
  split_ifs
  · simp [queriesOf_flatMap, queriesOf_sgRetryOne, flatMap_nil_fun]
  · rfl

lemma queriesOf_securityGroupsStage (st : AwsState) (dry : Bool) (v : String) :
    queriesOf (securityGroupsStage st dry v) = [Query.listSecurityGroups v] := by
  simp [securityGroupsStage, queriesOf_sgFirstPassLoop, queriesOf_sgRetryPass]

lemma logsOf_securityGroupsStage (st : AwsState) (dry : Bool) (v : String) :
    logsOf (securityGroupsStage st dry v) =
      (st.securityGroups.filter (fun sg => !(sg.groupName = "default" : Bool))).map
        (fun sg => "Deleting Security Group Rules: " ++ sg.groupId) := by
  simp [securityGroupsStage, logsOf_sgFirstPassLoop, logsOf_sgRetryPass]

lemma callsOf_securityGroupsStage_dry (st : AwsState) (v : String) :
    callsOf (securityGroupsStage st true v) = [] := by
  simp [securityGroupsStage, callsOf_sgFirstPassLoop_dry, sgFirstPassLoop_failures_dry,
    sgRetryPass]

lemma logsOf_eniProcess (st : AwsState) (dry : Bool) (eni : String) :
    logsOf (eniProcess st dry eni) = ["Deleting interface: " ++ eni] := by
  simp only [eniProcess]
  split_ifs <;> simp

lemma queriesOf_eniProcess (st : AwsState) (dry : Bool) (eni : String) :
    queriesOf (eniProcess st dry eni) = [] := by
  simp only [eniProcess]
  split_ifs <;> simp

lemma callsOf_eniProcess_dry (st : AwsState) (eni : String) :
    callsOf (eniProcess st true eni) = [] := by
  simp [eniProcess]

lemma queriesOf_networkInterfacesStage (st : AwsState) (dry : Bool) (v : String) :
    queriesOf (networkInterfacesStage st dry v) =
      Query.listSubnets v :: st.subnets.map (fun s => Query.listNetworkInterfaces s.subnetId) := by
  simp [networkInterfacesStage, queriesOf_flatMap, queriesOf_eniProcess, flatMap_nil_fun,
    flatMap_singleton_fun]

lemma logsOf_networkInterfacesStage (st : AwsState) (dry : Bool) (v : String) :
    logsOf (networkInterfacesStage st dry v) =
      st.subnets.flatMap (fun s =>
        s.networkInterfaces.map (fun eni => "Deleting interface: " ++ eni)) := by
  simp [networkInterfacesStage, logsOf_flatMap, logsOf_eniProcess, flatMap_singleton_fun]

lemma callsOf_networkInterfacesStage_dry (st : AwsState) (v : String) :
    callsOf (networkInterfacesStage st true v) = [] := by
  simp [networkInterfacesStage, callsOf_flatMap, callsOf_eniProcess_dry, flatMap_nil_fun]

lemma logsOf_peeringProcess (st : AwsState) (dry : Bool) (p : String) :
    logsOf (peeringProcess st dry p).1 = ["Deleting peer connection: " ++ p] := by
  simp only [peeringProcess]
  split_ifs <;> simp

lemma queriesOf_peeringProcess (st : AwsState) (dry : Bool) (p : String) :
    queriesOf (peeringProcess st dry p).1 = [] := by
  simp only [peeringProcess]
  split_ifs <;> simp

lemma callsOf_peeringProcess_dry (st : AwsState) (p : String) :
    callsOf (peeringProcess st true p).1 = [] := by
  simp [peeringProcess]

lemma peering_fst_flatMap (st : AwsState) (dry : Bool) :
    ∀ l : List String, ((l.map (peeringProcess st dry)).flatMap Prod.fst) =
      l.flatMap (fun p => (peeringProcess st dry p).1) := by
  intro l
  induction l with
  | nil => rfl
  | cons p rest ih => simp [List.flatMap_cons, ih]

lemma queriesOf_peeringStage (st : AwsState) (dry : Bool) (v : String) :
    queriesOf (peeringStage st dry v).1 =
      [Query.describeVpcPeeringConnections (DiscoveryFilter.requesterVpcId v)] := by
  simp only [peeringStage, queriesOf_cons_query, peering_fst_flatMap]
  simp [queriesOf_flatMap, queriesOf_peeringProcess, flatMap_nil_fun]

lemma logsOf_peeringStage (st : AwsState) (dry : Bool) (v : String) :
    logsOf (peeringStage st dry v).1 =
      st.peeringConnections.map (fun p => "Deleting peer connection: " ++ p) := by
  simp only [peeringStage, logsOf_cons_query, peering_fst_flatMap]
  simp [logsOf_flatMap, logsOf_peeringProcess, flatMap_singleton_fun]

lemma callsOf_peeringStage_dry (st : AwsState) (v : String) :
    callsOf (peeringStage st true v).1 = [] := by
  simp only [peeringStage, callsOf_cons_query, peering_fst_flatMap]
  simp [callsOf_flatMap, callsOf_peeringProcess_dry, flatMap_nil_fun]

lemma queriesOf_aclLoop (st : AwsState) (dry : Bool) :
    ∀ l, queriesOf (aclLoop st dry l).1 = [] := by
  intro l
  induction l with
  | nil => rfl
  | cons acl rest ih =>
    simp only [aclLoop]
    split_ifs <;> simp [ih]

lemma logsOf_aclLoop (st : AwsState) (dry : Bool)
    (hok : dry = true ∨ ∀ a, st.rejects (MutCall.deleteNetworkAcl a) = false) :
    ∀ l, logsOf (aclLoop st dry l).1 =
      (l.filter (fun acl => !acl.isDefault)).map (fun acl => "Deleting ACL: " ++ acl.aclId) := by
  intro l
  induction l with
  | nil => rfl
  | cons acl rest ih =>
    simp only [aclLoop]
    by_cases hdef : acl.isDefault
    · rw [if_pos hdef]
      simp [List.filter_cons, hdef, ih]
    · rw [if_neg hdef]
      rcases hok with hd | hr
      · rw [if_pos hd]
        simp [List.filter_cons, hdef, ih]
      · by_cases hdry : dry = true
        · rw [if_pos hdry]
          simp [List.filter_cons, hdef, ih]
        · rw [if_neg hdry, if_neg (by rw [hr acl.aclId]; simp)]
          simp [List.filter_cons, hdef, ih]

lemma callsOf_aclLoop_dry (st : AwsState) :
    ∀ l, callsOf (aclLoop st true l).1 = [] := by
  intro l
  induction l with
  | nil => rfl
  | cons acl rest ih =>
    simp only [aclLoop]
    split_ifs <;> simp [ih]

lemma queriesOf_aclStage (st : AwsState) (dry : Bool) (v : String) :
    queriesOf (aclStage st dry v).1 = [Query.listNetworkAcls v] := by
  rw [aclStage, seqE_fst_of_true _ (by rfl)]
  simp [queriesOf_aclLoop]

lemma logsOf_aclStage (st : AwsState) (dry : Bool) (v : String)
    (hok : dry = true ∨ ∀ a, st.rejects (MutCall.deleteNetworkAcl a) = false) :
    logsOf (aclStage st dry v).1 =
      (st.networkAcls.filter (fun acl => !acl.isDefault)).map
        (fun acl => "Deleting ACL: " ++ acl.aclId) := by
  rw [aclStage, seqE_fst_of_true _ (by rfl)]
  simp [logsOf_aclLoop st dry hok]

lemma callsOf_aclStage_dry (st : AwsState) (v : String) :
    callsOf (aclStage st true v).1 = [] := by
  rw [aclStage, seqE_fst_of_true _ (by rfl)]
  simp [callsOf_aclLoop_dry]

lemma logsOf_vpcDeleteStage (st : AwsState) (dry : Bool) (v : String) :
    logsOf (vpcDeleteStage st dry v) = ["Deleting the VPC: " ++ v] := by
  simp only [vpcDeleteStage]
  split_ifs <;> simp

lemma queriesOf_vpcDeleteStage (st : AwsState) (dry : Bool) (v : String) :
    queriesOf (vpcDeleteStage st dry v) = [] := by
  simp only [vpcDeleteStage]
  split_ifs <;> simp

lemma callsOf_vpcDeleteStage_dry (st : AwsState) (v : String) :
    callsOf (vpcDeleteStage st true v) = [] := by
  simp [vpcDeleteStage]

/-! Security-group pass characterizations (live runs). -/

lemma callsOf_sgFirstPassOne_live (st : AwsState) (sg : SecurityGroup) :
    callsOf (sgFirstPassOne st false sg).1 =
      if sg.groupName = "default" then [] else callsOf (sgTryDelete st sg).1 := by
  simp only [sgFirstPassOne]
  split_ifs <;> simp_all

lemma sgFirstPassOne_snd_live (st : AwsState) (sg : SecurityGroup) :
    (sgFirstPassOne st false sg).2 =
      if sg.groupName = "default" then []
      else if (sgTryDelete st sg).2 then [] else [sg] := by
  simp only [sgFirstPassOne]
  split_ifs <;> simp_all

/-- The failure set of the live first pass is exactly the non-default groups
whose revoke-and-delete attempt fails, in first-pass order. -/
lemma sgFirstPassLoop_failures (st : AwsState) :
    ∀ l, (sgFirstPassLoop st false l).2 =
      l.filter (fun sg => !(sg.groupName = "default" : Bool) && !(sgTryDelete st sg).2) := by
  intro l
  induction l with
  | nil => rfl
  | cons sg rest ih =>
    simp only [sgFirstPassLoop, sgFirstPassOne_snd_live, List.filter_cons]
    by_cases hdef : sg.groupName = "default"
    · simp [hdef, ih]
    · by_cases hs : (sgTryDelete st sg).2 = true <;> simp_all

lemma callsOf_sgFirstPassLoop_live (st : AwsState) :
    ∀ l, callsOf (sgFirstPassLoop st false l).1 =
      l.flatMap (fun sg =>
        if sg.groupName = "default" then [] else callsOf (sgTryDelete st sg).1) := by
  intro l
  induction l with
  | nil => rfl
  | cons sg rest ih =>
    simp only [sgFirstPassLoop, callsOf_append, callsOf_sgFirstPassOne_live,
      List.flatMap_cons, ih]

lemma callsOf_sgRetryOne (st : AwsState) (sg : SecurityGroup) :
    callsOf (sgRetryOne st sg) = callsOf (sgTryDelete st sg).1 := by
  simp only [sgRetryOne]
  split_ifs <;> simp

/-! Whole-run observer characterizations. -/

/-- In a dry run the whole procedure issues not a single mutating call. -/
lemma callsOf_vpc_cleanup_dry (args : CliArgs) (st : AwsState) (vpcid : Option String)
    (hd : args.dryRun = true) :
    callsOf (vpc_cleanup args st vpcid).1 = [] := by
  rcases vpcid with _ | v
  · rfl
  · by_cases hv : (v == "") = true
    · simp [vpc_cleanup, hv]
    · rw [vpc_cleanup_trace_split args st v (by simp at hv; simp [hv])
        (instancesStage_snd st args.dryRun v (Or.inl hd))
        (endpointsStage_snd st args.dryRun v (Or.inl hd))
        (aclStage_snd st args.dryRun v (Or.inl hd))]
      rw [hd]
      simp only [List.cons_append, callsOf_cons_log, callsOf_append,
        callsOf_instancesStage_dry, callsOf_routeTablesStage_dry,
        callsOf_internetGatewaysStage_dry, callsOf_natGatewaysStage_dry,
        callsOf_addressesStage_dry, callsOf_subnetsStage_dry,
        callsOf_endpointsStage_dry, callsOf_securityGroupsStage_dry,
        callsOf_networkInterfacesStage_dry, callsOf_peeringStage_dry,
        callsOf_aclStage_dry, callsOf_vpcDeleteStage_dry]
      simp

/-- The discovery queries of a complete run, in order: every stage performs
its listing exactly as in the source, whether or not the run is dry. -/
lemma queriesOf_vpc_cleanup (args : CliArgs) (st : AwsState) (v : String)
    (hok : args.dryRun = true ∨ NoFatalRejects st) (hv : (v == "") = false) :
    queriesOf (vpc_cleanup args st (some v)).1 =
      Query.listSubnets v :: st.subnets.map (fun s => Query.listInstances s.subnetId) ++
      [Query.listRouteTables v,
       Query.describeInternetGateways (nameFilter args),
       Query.describeNatGateways (DiscoveryFilter.vpcId v),
       Query.describeAddresses (nameFilter args),
       Query.listSubnets v,
       Query.describeVpcEndpoints (DiscoveryFilter.vpcId v),
       Query.listSecurityGroups v,
       Query.listSubnets v] ++
      st.subnets.map (fun s => Query.listNetworkInterfaces s.subnetId) ++
      [Query.describeVpcPeeringConnections (DiscoveryFilter.requesterVpcId v),
       Query.listNetworkAcls v] := by
  rw [vpc_cleanup_trace_split args st v hv
    (instancesStage_snd st args.dryRun v (hok.imp id (fun h => h.1)))
    (endpointsStage_snd st args.dryRun v (hok.imp id (fun h => h.2.1)))
    (aclStage_snd st args.dryRun v (hok.imp id (fun h => h.2.2)))]
  simp only [List.cons_append, queriesOf_cons_log, queriesOf_append,
    queriesOf_instancesStage st args.dryRun v (hok.imp id (fun h => h.1)),
    queriesOf_routeTablesStage, queriesOf_internetGatewaysStage,
    queriesOf_natGatewaysStage, queriesOf_addressesStage, queriesOf_subnetsStage,
    queriesOf_endpointsStage, queriesOf_securityGroupsStage,
    queriesOf_networkInterfacesStage, queriesOf_peeringStage, queriesOf_aclStage,
    queriesOf_vpcDeleteStage]
  simp

/-- The announcement (plain print) lines of a complete run.  The right-hand
side does not mention the dry-run flag: announcements are printed before the
dry-run gate, and do not depend on which guarded calls the backend rejects. -/
lemma logsOf_vpc_cleanup (args : CliArgs) (st : AwsState) (v : String)
    (hok : args.dryRun = true ∨ NoFatalRejects st) (hv : (v == "") = false) :
    logsOf (vpc_cleanup args st (some v)).1 =
      ("Starting to Removing VPC artefacts: " ++ v) ::
      st.subnets.flatMap (fun s =>
        s.instances.map (fun i => "Deleting the following Instance: " ++ i)) ++
      st.routeTables.flatMap (fun rt =>
        (rt.associations.map
          (fun a => "Deleting the following routing table associations: " ++ a.rtaId)) ++
        (rt.routes.map (fun r => "Deleting the following routing table routes: " ++ r)) ++
        ["Deleting the routing table: " ++ rt.rtId]) ++
      st.internetGateways.map (fun g => "Deleting internet gateway - " ++ g) ++
      st.natGateways.map (fun g => "Deleting NAT gateway - " ++ g) ++
      st.addresses.map (fun eip => "Releasing Elastic IP: " ++ eip) ++
      st.subnets.map (fun s => "Deleting subnet: " ++ s.subnetId) ++
      st.vpcEndpoints.map (fun ep => "Deleting endpoint: " ++ ep) ++
      (st.securityGroups.filter (fun sg => !(sg.groupName = "default" : Bool))).map
        (fun sg => "Deleting Security Group Rules: " ++ sg.groupId) ++
      st.subnets.flatMap (fun s =>
        s.networkInterfaces.map (fun eni => "Deleting interface: " ++ eni)) ++
      st.peeringConnections.map (fun p => "Deleting peer connection: " ++ p) ++
      (st.networkAcls.filter (fun acl => !acl.isDefault)).map
        (fun acl => "Deleting ACL: " ++ acl.aclId) ++
      ["Deleting the VPC: " ++ v] := by
  rw [vpc_cleanup_trace_split args st v hv
    (instancesStage_snd st args.dryRun v (hok.imp id (fun h => h.1)))
    (endpointsStage_snd st args.dryRun v (hok.imp id (fun h => h.2.1)))
    (aclStage_snd st args.dryRun v (hok.imp id (fun h => h.2.2)))]
  simp only [List.cons_append, logsOf_cons_log, logsOf_append,
    logsOf_instancesStage st args.dryRun v (hok.imp id (fun h => h.1)),
    logsOf_routeTablesStage, logsOf_internetGatewaysStage, logsOf_natGatewaysStage,
    logsOf_addressesStage, logsOf_subnetsStage,
    logsOf_endpointsStage st args.dryRun v (hok.imp id (fun h => h.2.1)),
    logsOf_securityGroupsStage, logsOf_networkInterfacesStage, logsOf_peeringStage,
    logsOf_aclStage st args.dryRun v (hok.imp id (fun h => h.2.2)),
    logsOf_vpcDeleteStage]

/-! Membership helpers for the claim theorems. -/

lemma mem_queriesOf {q : Query} {es : Trace} : q ∈ queriesOf es ↔ Event.query q ∈ es := by
  induction es with
  | nil => simp [queriesOf]
  | cons e rest ih => cases e <;> simp [ih]

lemma log_mem_vpcDeleteStage (st : AwsState) (dry : Bool) (v : String) :
    Event.log ("Deleting the VPC: " ++ v) ∈ vpcDeleteStage st dry v := by
  simp only [vpcDeleteStage]
  split_ifs <;> simp

lemma call_mem_vpcDeleteStage (st : AwsState) (v : String) :
    Event.call (MutCall.deleteVpc v) ∈ vpcDeleteStage st false v := by
  simp only [vpcDeleteStage]
  split_ifs <;> simp_all

lemma errLine_mem_natGatewaysStage (st : AwsState) (v : String) {g : String}
    (hg : g ∈ st.natGateways) (hr : st.rejects (MutCall.deleteNatGateway g) = true) :
    Event.errLine ("Dependency error with nat gateway: " ++ g) ∈
      natGatewaysStage st false v := by
  simp only [natGatewaysStage, List.mem_cons, List.mem_flatMap]
  refine Or.inr ⟨g, hg, ?_⟩
  simp [natProcess, hr]

lemma errLine_mem_sgRetryOne (st : AwsState) {sg : SecurityGroup}
    (hf : (sgTryDelete st sg).2 = false) :
    Event.errLine ("Could not rectify the dependency error with " ++ sg.groupId ++
      ". Rectify manually then retry") ∈ sgRetryOne st sg := by
  simp only [sgRetryOne]
  rw [if_neg (by rw [hf]; simp)]
  simp

/-! Claim theorems. -/

/-- C1: for every resource identifier the Cleanup Sequencer executes its
deletion stages in the fixed order (instances, route tables with
associations-routes-table per table, internet gateways, NAT gateways, elastic
IPs, subnets, endpoints, security groups including the reversed retry pass,
network interfaces, peering connections, network ACLs, then the VPC itself),
regardless of the discovery order within each kind: along any run trace the
stage index of the emitted mutating calls is nondecreasing, and within one
route table the calls are exactly the non-main association deletions, then
the route deletions, then the table deletion. -/
theorem stage_order_invariant (args : CliArgs) (st : AwsState) (vpcid : Option String) :
    IdxSorted (vpc_cleanup args st vpcid).1 ∧
    ∀ rt : RouteTable, callsOf (routeTableProcess st args.dryRun rt) =
      if args.dryRun then [] else
        ((rt.associations.filter (fun a => !a.main)).map
          (fun a => MutCall.deleteRouteTableAssoc a.rtaId)) ++
        (rt.routes.map (MutCall.deleteRoute rt.rtId)) ++
        [MutCall.deleteRouteTable rt.rtId] :=
  ⟨(idxSorted_vpc_cleanup args st vpcid).1,
   fun rt => callsOf_routeTableProcess st args.dryRun rt⟩

/-- C6: the session profile actually used is the hardcoded string literal of
line 46; the value passed through the --profile-name flag is ignored, so for
a profile name different from the literal the session is NOT established
under the passed profile. -/
theorem profile_flag_ignored :
    sessionProfile { argsLive with profileName := "my-profile" } = hardcodedProfile ∧
    ("my-profile" : String) ≠ hardcodedProfile :=
  ⟨rfl, by decide⟩

/-- C7: in a live run the route-table stage processes, for every route table,
exactly its non-main associations (a main association is never deleted), then
its routes, then the table itself; the equation holds for every rejection
oracle, so a failure in one sub-step never skips the others. -/
theorem route_table_stage_calls (st : AwsState) (v : String) :
    callsOf (routeTablesStage st false v) =
      st.routeTables.flatMap (fun rt =>
        ((rt.associations.filter (fun a => !a.main)).map
          (fun a => MutCall.deleteRouteTableAssoc a.rtaId)) ++
        (rt.routes.map (MutCall.deleteRoute rt.rtId)) ++
        [MutCall.deleteRouteTable rt.rtId]) := by
  simp only [routeTablesStage, callsOf_cons_query, callsOf_flatMap,
    callsOf_routeTableProcess]
  simp

/-- C10: for a falsy resource identifier (None or the empty string) the
procedure prints the diagnostic and returns at once, issuing no discovery
query and no mutating call. -/
theorem falsy_vpcid_early_return (args : CliArgs) (st : AwsState) (v : Option String)
    (h : pyFalsy v = true) :
    vpc_cleanup args st v = ([Event.log "VPC id was not provided. Exiting"], true) ∧
    queriesOf (vpc_cleanup args st v).1 = [] ∧
    callsOf (vpc_cleanup args st v).1 = [] := by
  rcases v with _ | s
  · exact ⟨rfl, rfl, rfl⟩
  · have hs : (s == "") = true := by simpa [pyFalsy] using h
    have h1 : vpc_cleanup args st (some s) =
        ([Event.log "VPC id was not provided. Exiting"], true) := by
      simp [vpc_cleanup, hs]
    refine ⟨h1, ?_, ?_⟩ <;> rw [h1] <;> rfl

/-- C10 witness: the guard fires on the None identifier against the base
backend. -/
theorem falsy_vpcid_early_return_witness :
    vpc_cleanup argsLive stBase none =
      ([Event.log "VPC id was not provided. Exiting"], true) ∧
    queriesOf (vpc_cleanup argsLive stBase none).1 = [] ∧
    callsOf (vpc_cleanup argsLive stBase none).1 = [] :=
  falsy_vpcid_early_return argsLive stBase none rfl

/-- C2 (amended): every delete/terminate/release/revoke/detach call that the
source wraps in try/except ClientError is caught and non-fatal: whenever the
backend accepts the three call kinds issued OUTSIDE any try/except (instance
termination, line 77; endpoint deletion, line 164; network-ACL deletion,
line 229), the run completes no matter which guarded calls are rejected, the
final VPC stage still runs (in a live run it still issues the delete), and a
rejected guarded call (NAT-gateway deletion as the representative) is
reported with the failing object's identity.  The claim as stated is false
for the three unguarded calls: see the counterexample. -/
theorem guarded_rejections_nonfatal (args : CliArgs) (st : AwsState) (v : String)
    (h : NoFatalRejects st) (hv : (v == "") = false) :
    (vpc_cleanup args st (some v)).2 = true ∧
    Event.log ("Deleting the VPC: " ++ v) ∈ (vpc_cleanup args st (some v)).1 ∧
    (args.dryRun = false →
      Event.call (MutCall.deleteVpc v) ∈ (vpc_cleanup args st (some v)).1) ∧
    (args.dryRun = false → ∀ g ∈ st.natGateways,
      st.rejects (MutCall.deleteNatGateway g) = true →
      Event.errLine ("Dependency error with nat gateway: " ++ g) ∈
        (vpc_cleanup args st (some v)).1) := by
  have hsplit := vpc_cleanup_trace_split args st v hv
    (instancesStage_snd st args.dryRun v (Or.inr h.1))
    (endpointsStage_snd st args.dryRun v (Or.inr h.2.1))
    (aclStage_snd st args.dryRun v (Or.inr h.2.2))
  refine ⟨vpc_cleanup_snd args st (some v) (Or.inr h), ?_, ?_, ?_⟩
  · rw [hsplit]
    have hm := log_mem_vpcDeleteStage st args.dryRun v
    simp [List.mem_append, hm]
  · intro hd
    rw [hd] at hsplit
    rw [hsplit]
    have hm := call_mem_vpcDeleteStage st v
    simp [List.mem_append, hm]
  · intro hd g hg hr
    rw [hd] at hsplit
    rw [hsplit]
    have hm := errLine_mem_natGatewaysStage st v hg hr
    simp [List.mem_append, hm]

/-- C2 witness: against a backend rejecting two guarded calls (subnet-1 and
sg-1 deletion) the live run still completes, still reaches the VPC stage and
reports rejected guarded calls. -/
theorem guarded_rejections_nonfatal_witness :
    (vpc_cleanup argsLive stRejectGuarded (some "vpc-1")).2 = true ∧
    Event.log ("Deleting the VPC: " ++ "vpc-1") ∈
      (vpc_cleanup argsLive stRejectGuarded (some "vpc-1")).1 ∧
    (argsLive.dryRun = false →
      Event.call (MutCall.deleteVpc "vpc-1") ∈
        (vpc_cleanup argsLive stRejectGuarded (some "vpc-1")).1) ∧
    (argsLive.dryRun = false → ∀ g ∈ stRejectGuarded.natGateways,
      stRejectGuarded.rejects (MutCall.deleteNatGateway g) = true →
      Event.errLine ("Dependency error with nat gateway: " ++ g) ∈
        (vpc_cleanup argsLive stRejectGuarded (some "vpc-1")).1) :=
  guarded_rejections_nonfatal argsLive stRejectGuarded "vpc-1"
    ⟨fun _ => rfl, fun _ => rfl, fun _ => rfl⟩ rfl

/-- C2 counterexample: a ClientError from instance.terminate() (line 77, not
inside any try/except) aborts the whole cleanup: the run does not complete,
the VPC-deletion stage never issues its call, and the next matched VPC is
never processed by the main loop (lines 244-246 have no try/except either). -/
theorem unguarded_rejection_fatal_counterexample :
    (vpc_cleanup argsLive stRejectTerminate (some "vpc-1")).2 = false ∧
    Event.call (MutCall.deleteVpc "vpc-1") ∉
      (vpc_cleanup argsLive stRejectTerminate (some "vpc-1")).1 ∧
    Event.log "Starting to Removing VPC artefacts: vpc-2" ∉
      (mainLoop argsLive stRejectTerminate ["vpc-1", "vpc-2"]).1 := by
  decide

/-- C3 (amended): with the dry-run flag set the procedure issues zero
mutating calls while still performing every stage's discovery query in source
order; every mutating call site except those of the security-group retry
block (lines 185-195) is individually gated by the flag, and the retry block
is unreachable with a nonempty set in a dry run because the first pass
collects failures only inside its live-only branch. -/
theorem dry_run_gating (args : CliArgs) (st : AwsState) (v : String)
    (hd : args.dryRun = true) (hv : (v == "") = false) :
    callsOf (vpc_cleanup args st (some v)).1 = [] ∧
    (sgFirstPassLoop st args.dryRun st.securityGroups).2 = [] ∧
    queriesOf (vpc_cleanup args st (some v)).1 =
      Query.listSubnets v :: st.subnets.map (fun s => Query.listInstances s.subnetId) ++
      [Query.listRouteTables v,
       Query.describeInternetGateways (nameFilter args),
       Query.describeNatGateways (DiscoveryFilter.vpcId v),
       Query.describeAddresses (nameFilter args),
       Query.listSubnets v,
       Query.describeVpcEndpoints (DiscoveryFilter.vpcId v),
       Query.listSecurityGroups v,
       Query.listSubnets v] ++
      st.subnets.map (fun s => Query.listNetworkInterfaces s.subnetId) ++
      [Query.describeVpcPeeringConnections (DiscoveryFilter.requesterVpcId v),
       Query.listNetworkAcls v] := by
  refine ⟨callsOf_vpc_cleanup_dry args st (some v) hd, ?_,
    queriesOf_vpc_cleanup args st v (Or.inl hd) hv⟩
  rw [hd]
  exact sgFirstPassLoop_failures_dry st st.securityGroups

/-- C3 witness: a dry run against the base backend issues no calls, collects
no retry set, and performs the full discovery sequence. -/
theorem dry_run_gating_witness :
    callsOf (vpc_cleanup argsDry stBase (some "vpc-1")).1 = [] ∧
    (sgFirstPassLoop stBase argsDry.dryRun stBase.securityGroups).2 = [] ∧
    queriesOf (vpc_cleanup argsDry stBase (some "vpc-1")).1 =
      Query.listSubnets "vpc-1" ::
        stBase.subnets.map (fun s => Query.listInstances s.subnetId) ++
      [Query.listRouteTables "vpc-1",
       Query.describeInternetGateways (nameFilter argsDry),
       Query.describeNatGateways (DiscoveryFilter.vpcId "vpc-1"),
       Query.describeAddresses (nameFilter argsDry),
       Query.listSubnets "vpc-1",
       Query.describeVpcEndpoints (DiscoveryFilter.vpcId "vpc-1"),
       Query.listSecurityGroups "vpc-1",
       Query.listSubnets "vpc-1"] ++
      stBase.subnets.map (fun s => Query.listNetworkInterfaces s.subnetId) ++
      [Query.describeVpcPeeringConnections (DiscoveryFilter.requesterVpcId "vpc-1"),
       Query.listNetworkAcls "vpc-1"] :=
  dry_run_gating argsDry stBase "vpc-1" rfl rfl

/-- C3 counterexample: the mutating operations of the security-group retry
block are NOT individually gated by the dry-run flag: the embedded retry
block (lines 183-195) reads no dry-run state at all, and run on a nonempty
failure set it issues revoke and delete calls. -/
theorem sg_retry_not_gated_counterexample :
    callsOf (sgRetryPass stBase [sgWeb]) =
      [MutCall.revokeIngress "sg-1" ["p1"], MutCall.revokeEgress "sg-1" ["p1"],
       MutCall.deleteSecurityGroup "sg-1"] ∧
    sgRetryPass stBase [sgWeb] ≠ [] := by
  decide

/-- C5 (amended): for the same backend state, provided that backend accepts
the three unguarded call kinds (otherwise the live run aborts early and its
log is truncated, see the counterexample), a dry run issues zero mutating
calls and prints exactly the same per-object announcement lines as the live
run; the two runs differ only in queries-vs-calls markers, not in
announcements. -/
theorem dry_live_same_announcements (args : CliArgs) (st : AwsState) (v : String)
    (h : NoFatalRejects st) (hv : (v == "") = false) :
    callsOf (vpc_cleanup { args with dryRun := true } st (some v)).1 = [] ∧
    logsOf (vpc_cleanup { args with dryRun := true } st (some v)).1 =
      logsOf (vpc_cleanup { args with dryRun := false } st (some v)).1 := by
  constructor
  · exact callsOf_vpc_cleanup_dry { args with dryRun := true } st (some v) rfl
  · rw [logsOf_vpc_cleanup { args with dryRun := true } st v (Or.inl rfl) hv,
      logsOf_vpc_cleanup { args with dryRun := false } st v (Or.inr h) hv]

/-- C5 witness: dry and live runs over the base backend print identical
announcement lines, and the dry run issues no calls. -/
theorem dry_live_same_announcements_witness :
    callsOf (vpc_cleanup { argsLive with dryRun := true } stBase (some "vpc-1")).1 = [] ∧
    logsOf (vpc_cleanup { argsLive with dryRun := true } stBase (some "vpc-1")).1 =
      logsOf (vpc_cleanup { argsLive with dryRun := false } stBase (some "vpc-1")).1 :=
  dry_live_same_announcements argsLive stBase "vpc-1"
    ⟨fun _ => rfl, fun _ => rfl, fun _ => rfl⟩ rfl

/-- C5 counterexample: when the backend rejects the unguarded termination of
i-1 the live run aborts after the first instance announcement, so its
per-object log output is NOT identical to the dry run's over the very same
backend state. -/
theorem dry_live_logs_differ_counterexample :
    logsOf (vpc_cleanup argsDry stRejectTerminate (some "vpc-1")).1 ≠
      logsOf (vpc_cleanup argsLive stRejectTerminate (some "vpc-1")).1 ∧
    callsOf (vpc_cleanup argsDry stRejectTerminate (some "vpc-1")).1 = [] := by
  decide

lemma sgRetryPass_eq (st : AwsState) (fails : List SecurityGroup) :
    sgRetryPass st fails = fails.reverse.flatMap (sgRetryOne st) := by
  simp only [sgRetryPass]
  split_ifs with hl
  · rfl
  · have h0 : fails = [] := by
      cases fails with
      | nil => rfl
      | cons a l => simp at hl
    rw [h0]
    rfl

/-- C4: in a live run the retry set equals exactly the non-default groups
whose first-pass revoke-and-delete attempt failed, in first-pass order; the
retry pass is a single traversal of exactly that set in exactly reversed
order (so a group outside the first-pass failure set is never retried and no
group is retried twice); and every group whose attempt fails against the
modelled backend is reported for manual remediation inside the stage trace. -/
theorem sg_retry_set_exact (st : AwsState) (v : String) :
    (sgFirstPassLoop st false st.securityGroups).2 =
      st.securityGroups.filter
        (fun sg => !(sg.groupName = "default" : Bool) && !(sgTryDelete st sg).2) ∧
    securityGroupsStage st false v =
      Event.query (Query.listSecurityGroups v) ::
        (sgFirstPassLoop st false st.securityGroups).1 ++
        ((st.securityGroups.filter
          (fun sg => !(sg.groupName = "default" : Bool) && !(sgTryDelete st sg).2)).reverse).flatMap
          (sgRetryOne st) ∧
    ∀ sg ∈ st.securityGroups.filter
        (fun sg => !(sg.groupName = "default" : Bool) && !(sgTryDelete st sg).2),
      Event.errLine ("Could not rectify the dependency error with " ++ sg.groupId ++
        ". Rectify manually then retry") ∈ securityGroupsStage st false v := by
  refine ⟨sgFirstPassLoop_failures st st.securityGroups, ?_, ?_⟩
  · simp only [securityGroupsStage]
    rw [sgFirstPassLoop_failures, sgRetryPass_eq]
  · intro sg hm
    have hpred := List.mem_filter.mp hm
    have hfail : (sgTryDelete st sg).2 = false := by
      have h2 := hpred.2
      simp only [Bool.and_eq_true, Bool.not_eq_true'] at h2
      exact h2.2
    have herr := errLine_mem_sgRetryOne st hfail
    simp only [securityGroupsStage, List.mem_cons, List.mem_append]
    refine Or.inr ?_
    rw [sgFirstPassLoop_failures, sgRetryPass_eq, List.mem_flatMap]
    exact ⟨sg, List.mem_reverse.mpr hm, herr⟩

/-- C4 witness: with sg-1 deletion rejected, the retry set is exactly the one
failed non-default group, the retry pass traverses its reversal once, and the
still-failing group is reported. -/
theorem sg_retry_set_exact_witness :
    (sgFirstPassLoop stRejectGuarded false stRejectGuarded.securityGroups).2 =
      stRejectGuarded.securityGroups.filter
        (fun sg => !(sg.groupName = "default" : Bool) && !(sgTryDelete stRejectGuarded sg).2) ∧
    securityGroupsStage stRejectGuarded false "vpc-1" =
      Event.query (Query.listSecurityGroups "vpc-1") ::
        (sgFirstPassLoop stRejectGuarded false stRejectGuarded.securityGroups).1 ++
        ((stRejectGuarded.securityGroups.filter
          (fun sg => !(sg.groupName = "default" : Bool) &&
            !(sgTryDelete stRejectGuarded sg).2)).reverse).flatMap
          (sgRetryOne stRejectGuarded) ∧
    ∀ sg ∈ stRejectGuarded.securityGroups.filter
        (fun sg => !(sg.groupName = "default" : Bool) && !(sgTryDelete stRejectGuarded sg).2),
      Event.errLine ("Could not rectify the dependency error with " ++ sg.groupId ++
        ". Rectify manually then retry") ∈ securityGroupsStage stRejectGuarded false "vpc-1" :=
  sg_retry_set_exact stRejectGuarded "vpc-1"

/-- C8: in a live run where the backend accepts every call, the
security-group stage issues, for all and only the non-default groups (the
default group is always skipped), first the ingress and egress revocations -
performed only when the group's ip_permissions list is nonempty, and both
passed that very list - and then the group deletion. -/
theorem sg_stage_revoke_then_delete (st : AwsState) (v : String)
    (h : ∀ c, st.rejects c = false) :
    callsOf (securityGroupsStage st false v) =
      st.securityGroups.flatMap (fun sg =>
        if sg.groupName = "default" then []
        else
          (if sg.ipPermissions = [] then []
           else [MutCall.revokeIngress sg.groupId sg.ipPermissions,
                 MutCall.revokeEgress sg.groupId sg.ipPermissions]) ++
          [MutCall.deleteSecurityGroup sg.groupId]) := by
  have hsnd : ∀ sg : SecurityGroup, (sgTryDelete st sg).2 = true := by
    intro sg
    rw [sgTryDelete_snd]
    simp [h]
  have hfail : (sgFirstPassLoop st false st.securityGroups).2 = [] := by
    rw [sgFirstPassLoop_failures]
    simp [hsnd]
  have hb : (fun sg : SecurityGroup =>
      if sg.groupName = "default" then [] else callsOf (sgTryDelete st sg).1) =
      (fun sg : SecurityGroup =>
        if sg.groupName = "default" then []
        else
          (if sg.ipPermissions = [] then []
           else [MutCall.revokeIngress sg.groupId sg.ipPermissions,
                 MutCall.revokeEgress sg.groupId sg.ipPermissions]) ++
          [MutCall.deleteSecurityGroup sg.groupId]) := by
    funext sg
    rw [sgTryDelete_calls]
    simp only [h]
    split_ifs <;> simp_all
  simp only [securityGroupsStage, hfail, sgRetryPass, List.length_nil]
  rw [if_neg (by simp)]
  simp only [List.append_nil, callsOf_cons_query]
  rw [callsOf_sgFirstPassLoop_live, hb]

/-- C8 witness: over the all-accepting base backend the stage's calls are the
revoke-revoke-delete sequence for sg-1 (which has rules), the bare delete for
sg-2 (no rules), and nothing for the default group. -/
theorem sg_stage_revoke_then_delete_witness :
    callsOf (securityGroupsStage stBase false "vpc-1") =
      stBase.securityGroups.flatMap (fun sg =>
        if sg.groupName = "default" then []
        else
          (if sg.ipPermissions = [] then []
           else [MutCall.revokeIngress sg.groupId sg.ipPermissions,
                 MutCall.revokeEgress sg.groupId sg.ipPermissions]) ++
          [MutCall.deleteSecurityGroup sg.groupId]) :=
  sg_stage_revoke_then_delete stBase "vpc-1" (fun _ => rfl)

/-- C9: internet-gateway and elastic-IP discovery use the wildcard-wrapped
name-tag filter built from the operator's filter term, while NAT-gateway,
endpoint and peering-connection discovery are scoped by the target's vpc-id
(peering by requester-vpc-info.vpc-id); no query of those five kinds is ever
issued with any other filter. -/
theorem discovery_filter_scoping (args : CliArgs) (st : AwsState) (v : String)
    (hok : args.dryRun = true ∨ NoFatalRejects st) (hv : (v == "") = false) :
    (Event.query (Query.describeInternetGateways (nameFilter args)) ∈
      (vpc_cleanup args st (some v)).1) ∧
    (Event.query (Query.describeAddresses (nameFilter args)) ∈
      (vpc_cleanup args st (some v)).1) ∧
    (Event.query (Query.describeNatGateways (DiscoveryFilter.vpcId v)) ∈
      (vpc_cleanup args st (some v)).1) ∧
    (Event.query (Query.describeVpcEndpoints (DiscoveryFilter.vpcId v)) ∈
      (vpc_cleanup args st (some v)).1) ∧
    (Event.query (Query.describeVpcPeeringConnections (DiscoveryFilter.requesterVpcId v)) ∈
      (vpc_cleanup args st (some v)).1) ∧
    (∀ f, Event.query (Query.describeInternetGateways f) ∈
      (vpc_cleanup args st (some v)).1 → f = nameFilter args) ∧
    (∀ f, Event.query (Query.describeAddresses f) ∈
      (vpc_cleanup args st (some v)).1 → f = nameFilter args) ∧
    (∀ f, Event.query (Query.describeNatGateways f) ∈
      (vpc_cleanup args st (some v)).1 → f = DiscoveryFilter.vpcId v) ∧
    (∀ f, Event.query (Query.describeVpcEndpoints f) ∈
      (vpc_cleanup args st (some v)).1 → f = DiscoveryFilter.vpcId v) ∧
    (∀ f, Event.query (Query.describeVpcPeeringConnections f) ∈
      (vpc_cleanup args st (some v)).1 → f = DiscoveryFilter.requesterVpcId v) := by
  have hq := queriesOf_vpc_cleanup args st v hok hv
  refine ⟨?_, ?_, ?_, ?_, ?_, ?_, ?_, ?_, ?_, ?_⟩
  · exact mem_queriesOf.mp (by rw [hq]; simp)
  · exact mem_queriesOf.mp (by rw [hq]; simp)
  · exact mem_queriesOf.mp (by rw [hq]; simp)
  · exact mem_queriesOf.mp (by rw [hq]; simp)
  · exact mem_queriesOf.mp (by rw [hq]; simp)
  all_goals
    intro f hf
    have h2 := mem_queriesOf.mpr hf
    rw [hq] at h2
    simp at h2
    exact h2

/-- C9 witness: the scoping facts instantiated on the base backend in a live
run. -/
theorem discovery_filter_scoping_witness :
    (Event.query (Query.describeInternetGateways (nameFilter argsLive)) ∈
      (vpc_cleanup argsLive stBase (some "vpc-1")).1) ∧
    (Event.query (Query.describeAddresses (nameFilter argsLive)) ∈
      (vpc_cleanup argsLive stBase (some "vpc-1")).1) ∧
    (Event.query (Query.describeNatGateways (DiscoveryFilter.vpcId "vpc-1")) ∈
      (vpc_cleanup argsLive stBase (some "vpc-1")).1) ∧
    (Event.query (Query.describeVpcEndpoints (DiscoveryFilter.vpcId "vpc-1")) ∈
      (vpc_cleanup argsLive stBase (some "vpc-1")).1) ∧
    (Event.query (Query.describeVpcPeeringConnections (DiscoveryFilter.requesterVpcId "vpc-1")) ∈
      (vpc_cleanup argsLive stBase (some "vpc-1")).1) ∧
    (∀ f, Event.query (Query.describeInternetGateways f) ∈
      (vpc_cleanup argsLive stBase (some "vpc-1")).1 → f = nameFilter argsLive) ∧
    (∀ f, Event.query (Query.describeAddresses f) ∈
      (vpc_cleanup argsLive stBase (some "vpc-1")).1 → f = nameFilter argsLive) ∧
    (∀ f, Event.query (Query.describeNatGateways f) ∈
      (vpc_cleanup argsLive stBase (some "vpc-1")).1 → f = DiscoveryFilter.vpcId "vpc-1") ∧
    (∀ f, Event.query (Query.describeVpcEndpoints f) ∈
      (vpc_cleanup argsLive stBase (some "vpc-1")).1 → f = DiscoveryFilter.vpcId "vpc-1") ∧
    (∀ f, Event.query (Query.describeVpcPeeringConnections f) ∈
      (vpc_cleanup argsLive stBase (some "vpc-1")).1 →
      f = DiscoveryFilter.requesterVpcId "vpc-1") :=
  discovery_filter_scoping argsLive stBase "vpc-1"
    (Or.inr ⟨fun _ => rfl, fun _ => rfl, fun _ => rfl⟩) rfl

end VpcCleaner
